import Mathlib

/-!
VPN gateway controller: validator, change detector, synthesizer, convergence handler

A shallow embedding of `internal/controller/vpngw_controller.go`.

* Go strings are Lean `String`s, Go `int`/`int32` are `Int` (the one narrowing
  conversion `int32(..)` is explicit), a Go `error` is an `Option GoError`.
* A Go slice is `Option (List α)`: `none` is the nil slice and `some []` the
  empty non-nil slice, which `reflect.DeepEqual` tells apart.
* A Go `map[string]string` is an association list read through `StrMap.get`.
* The toleration and affinity types come from the pod API; the controller only
  copies and compares them, so they are the type parameters `Tol` and `Aff`
  and `reflect.DeepEqual` on them is equality.
* A pointer receiver that is mutated (`isChanged`) returns the new value next
  to its result.  Calls into the external store go through a `Client`, and the
  handler records every call it issues in a trace.
* Logging has no effect on results or on the store and is left out.
-/

set_option linter.dupNamespace false

namespace VpnGwController

/-! ## Data model -/

/-- A Go slice: `none` is nil, `some l` a non-nil slice with elements `l`. -/
abbrev Slice (α : Type) := Option (List α)

/-- The elements a `for _, v := range s` loop visits. -/
def Slice.elems {α : Type} : Slice α → List α
  | none => []
  | some l => l

/-- A Go `map[string]string`; earlier entries shadow later ones. -/
abbrev StrMap := List (String × String)

/-- Map read `m[k]`, with presence. -/
def StrMap.get (m : StrMap) (k : String) : Option String :=
  match m with
  | [] => none
  | (k1, v) :: rest => if k1 = k then some v else StrMap.get rest k

/-- Map write `m[k] = v`. -/
def StrMap.set (m : StrMap) (k v : String) : StrMap :=
  (k, v) :: m.filter (fun p => p.1 ≠ k)

/-- Spec of a VpnGw (`gw.Spec`), with the fields the controller reads. -/
structure VpnGwSpec (Tol Aff : Type) where
  Subnet : String
  Ip : String
  Replicas : Int
  EnableSslVpn : Bool
  EnableIpsecVpn : Bool
  OvpnCipher : String
  OvpnProto : String
  OvpnPort : Int
  OvpnSubnetCidr : String
  SslVpnImage : String
  Selector : Slice String
  Tolerations : Slice Tol
  Affinity : Aff
  deriving DecidableEq

/-- Status of a VpnGw (`gw.Status`): the last-observed-state mirror. -/
structure VpnGwStatus (Tol Aff : Type) where
  Subnet : String
  Ip : String
  Replicas : Int
  EnableSslVpn : Bool
  EnableIpsecVpn : Bool
  OvpnCipher : String
  OvpnProto : String
  OvpnPort : Int
  OvpnSubnetCidr : String
  Selector : Slice String
  Tolerations : Slice Tol
  Affinity : Aff
  deriving DecidableEq

/-- The desired-state object. -/
structure VpnGw (Tol Aff : Type) where
  Name : String
  Namespace : String
  Spec : VpnGwSpec Tol Aff
  Status : VpnGwStatus Tol Aff
  deriving DecidableEq

/-- Store errors, as far as `apierrors.IsNotFound` tells them apart. -/
inductive ApiError
  | NotFound
  | Other
  deriving DecidableEq, Repr

/-- Modelled from the spec: the package-level `errRetry` is declared outside
this file ("a distinguished retryable error signal"); the other constructors
are errors built by `fmt.Errorf` and errors returned by the store client. -/
inductive GoError
  | msg (s : String)
  | api (e : ApiError)
  | errRetry
  deriving DecidableEq, Repr

/-- Modelled from the spec: `SyncState` is declared outside this file; it is
the tri-state outcome `Success`, `Error` (retryable), `ErrorNoRetry`. -/
inductive SyncState
  | SyncStateSuccess
  | SyncStateError
  | SyncStateErrorNoRetry
  deriving DecidableEq, Repr

/-! ## Validator -/

/-- `validateVpnGw`: `none` is the nil error. -/
def validateVpnGw {Tol Aff : Type} (gw : VpnGw Tol Aff) : Option GoError :=
  if gw.Spec.Subnet = "" then
    some (.msg "vpn gw subnet is required")
  else if gw.Spec.Replicas < 0 ∨ gw.Spec.Replicas > 2 then
    some (.msg "vpn gw replicas should be 1 or 2")
  else if gw.Spec.EnableSslVpn then
    if gw.Spec.OvpnCipher = "" then
      some (.msg "ssl vpn cipher is required")
    else if gw.Spec.OvpnProto = "" then
      some (.msg "ssl vpn proto is required")
    else if gw.Spec.OvpnPort = 0 then
      some (.msg "ssl vpn port is required")
    else if gw.Spec.OvpnSubnetCidr = "" then
      some (.msg "ssl vpn subnet cidr is required")
    else if gw.Spec.OvpnProto ≠ "udp" ∧ gw.Spec.OvpnProto ≠ "tcp" then
      some (.msg "ssl vpn proto should be udp or tcp")
    else if gw.Spec.SslVpnImage = "" then
      some (.msg "ssl vpn image is required")
    else
      none
  else
    none

/-- The acceptance condition of the validator, as the specification words it. -/
def ValidSpec {Tol Aff : Type} (s : VpnGwSpec Tol Aff) : Prop :=
  s.Subnet ≠ "" ∧ 0 ≤ s.Replicas ∧ s.Replicas ≤ 2 ∧
    (s.EnableSslVpn = true →
      s.OvpnCipher ≠ "" ∧ (s.OvpnProto = "udp" ∨ s.OvpnProto = "tcp") ∧
        s.OvpnPort ≠ 0 ∧ s.OvpnSubnetCidr ≠ "" ∧ s.SslVpnImage ≠ "")

/-! ## Child workload descriptor -/

/-- Exposed container port. -/
structure ContainerPort where
  ContainerPort : Int
  Name : String
  Protocol : String
  deriving DecidableEq, Repr

/-- Environment variable of a container. -/
structure EnvVar where
  Name : String
  Value : String
  deriving DecidableEq, Repr

/-- Security context; the two pointers are `none` when nil. -/
structure SecurityContext where
  Privileged : Option Bool
  AllowPrivilegeEscalation : Option Bool
  deriving DecidableEq, Repr

/-- Container spec, with the fields the synthesizer sets. -/
structure Container where
  Name : String
  Image : String
  Command : List String
  Args : List String
  Ports : List ContainerPort
  Env : List EnvVar
  ImagePullPolicy : String
  SecurityContext : Option SecurityContext
  deriving DecidableEq, Repr

/-- Owner reference written by `controllerutil.SetControllerReference`. -/
structure OwnerReference where
  Kind : String
  Name : String
  Controller : Bool
  BlockOwnerDeletion : Bool
  deriving DecidableEq, Repr

/-- Pod spec of the template. -/
structure PodSpec (Tol Aff : Type) where
  Containers : List Container
  NodeSelector : StrMap
  Tolerations : Slice Tol
  Affinity : Option Aff
  deriving DecidableEq

/-- Pod template: its metadata and spec. -/
structure PodTemplateSpec (Tol Aff : Type) where
  Labels : StrMap
  Annotations : StrMap
  Spec : PodSpec Tol Aff
  deriving DecidableEq

/-- Spec of the StatefulSet. -/
structure StatefulSetSpec (Tol Aff : Type) where
  Replicas : Option Int
  MatchLabels : StrMap
  Template : PodTemplateSpec Tol Aff
  UpdateStrategyType : String
  deriving DecidableEq

/-- The child workload descriptor (`appsv1.StatefulSet`). -/
structure StatefulSet (Tol Aff : Type) where
  Name : String
  Namespace : String
  Labels : StrMap
  Annotations : StrMap
  OwnerReferences : List OwnerReference
  Spec : StatefulSetSpec Tol Aff
  deriving DecidableEq

def SslVpnServer : String := "ssl-vpn-server"
def IpsecVpnServer : String := "ipsec-vpn-server"
def EnableSslVpnLabel : String := "enable_ssl_vpn"
def EnableIpsecVpnLabel : String := "enable_ipsec_vpn"
def KubeovnIpAddressAnnotation : String := "ovn.kubernetes.io/ip_address"
def KubeovnLogicalSwitchAnnotation : String := "ovn.kubernetes.io/logical_switch"
def OvpnProtoKey : String := "ovpn_proto"
def OvpnPortKey : String := "ovpn_port"
def OvpnCipherKey : String := "ovpn_cipher"
def OvpnSubnetCidrKey : String := "ovpn_subnet_cidr"

/-- `strconv.FormatBool`. -/
def FormatBool (b : Bool) : String := if b then "true" else "false"

/-- `strconv.Itoa`: decimal rendering. -/
def Itoa (n : Int) : String := toString n

/-- The conversion `int32(n)` of a Go `int`: wraps modulo `2^32`. -/
def toInt32 (n : Int) : Int := (n + 2 ^ 31) % 2 ^ 32 - 2 ^ 31

/-- `unicode.IsSpace`. -/
def isSpace (c : Char) : Bool :=
  let n := c.toNat
  (9 ≤ n ∧ n ≤ 13) ∨ n = 32 ∨ n = 0x85 ∨ n = 0xA0 ∨ n = 0x1680 ∨
    (0x2000 ≤ n ∧ n ≤ 0x200A) ∨ n = 0x2028 ∨ n = 0x2029 ∨ n = 0x202F ∨
    n = 0x205F ∨ n = 0x3000

/-- `strings.TrimSpace`. -/
def TrimSpace (s : String) : String :=
  ⟨((s.data.dropWhile isSpace).reverse.dropWhile isSpace).reverse⟩

/-- Splitting a character list at every occurrence of `sep`. -/
def splitChars (sep : Char) : List Char → List (List Char)
  | [] => [[]]
  | c :: cs =>
    if c = sep then [] :: splitChars sep cs
    else
      match splitChars sep cs with
      | [] => [[c]]
      | p :: ps => (c :: p) :: ps

/-- `strings.Split(s, sep)` for a one-character separator: all pieces. -/
def Split (s : String) (sep : Char) : List String :=
  (splitChars sep s.data).map String.mk

/-- `labelsForVpnGw`. -/
def labelsForVpnGw {Tol Aff : Type} (gw : VpnGw Tol Aff) : StrMap :=
  [("app", "vpngw"),
   (EnableSslVpnLabel, FormatBool gw.Spec.EnableSslVpn),
   (EnableIpsecVpnLabel, FormatBool gw.Spec.EnableIpsecVpn)]

/-- The pod annotations of `statefulSetForVpnGw`: the prior descriptor's
annotation map when there is one and it is non-empty, else a fresh map,
overwritten with the two computed entries (which have distinct keys, so the
iteration order over them does not change the resulting map). -/
def podAnnotationsFor {Tol Aff : Type} (gw : VpnGw Tol Aff)
    (oldSts : Option (StatefulSet Tol Aff)) : StrMap :=
  let newPodAnnotations : StrMap :=
    match oldSts with
    | some o => if o.Annotations.length ≠ 0 then o.Annotations else []
    | none => []
  (newPodAnnotations.set KubeovnLogicalSwitchAnnotation gw.Spec.Subnet).set
    KubeovnIpAddressAnnotation gw.Spec.Ip

/-- The node-selector loop of `statefulSetForVpnGw`. -/
def selectorsFor (selector : Slice String) : StrMap :=
  selector.elems.foldl
    (fun selectors v =>
      match Split (TrimSpace v) ':' with
      | [p0, p1] => selectors.set (TrimSpace p0) (TrimSpace p1)
      | _ => selectors)
    []

/-- The container list of `statefulSetForVpnGw`. -/
def containersFor {Tol Aff : Type} (gw : VpnGw Tol Aff) : List Container :=
  let allowPrivilegeEscalation := true
  let privileged := true
  let containers : List Container := []
  let containers :=
    if gw.Spec.EnableSslVpn then
      containers ++
        [{ Name := SslVpnServer
           Image := gw.Spec.SslVpnImage
           Command := ["bash"]
           Args := ["-c", "sleep infinity"]
           Ports := [{ ContainerPort := toInt32 gw.Spec.OvpnPort
                       Name := SslVpnServer
                       Protocol := gw.Spec.OvpnProto }]
           Env := [{ Name := OvpnProtoKey, Value := gw.Spec.OvpnProto },
                   { Name := OvpnPortKey, Value := Itoa gw.Spec.OvpnPort },
                   { Name := OvpnCipherKey, Value := gw.Spec.OvpnCipher },
                   { Name := OvpnSubnetCidrKey, Value := gw.Spec.OvpnSubnetCidr }]
           ImagePullPolicy := "IfNotPresent"
           SecurityContext := some { Privileged := some privileged
                                     AllowPrivilegeEscalation := some allowPrivilegeEscalation } }]
    else containers
  if gw.Spec.EnableIpsecVpn then
    containers ++
      [{ Name := IpsecVpnServer
         Image := gw.Spec.SslVpnImage
         Command := ["bash"]
         Args := ["-c", "sleep infinity"]
         Ports := []
         Env := []
         ImagePullPolicy := "IfNotPresent"
         SecurityContext := some { Privileged := some privileged
                                   AllowPrivilegeEscalation := some allowPrivilegeEscalation } }]
  else containers

/-- Modelled from the spec: `controllerutil.SetControllerReference` is library
code; "the descriptor is marked as owned-by-and-controlled-by the Gw". -/
def controllerReference {Tol Aff : Type} (gw : VpnGw Tol Aff) : List OwnerReference :=
  [{ Kind := "VpnGw", Name := gw.Name, Controller := true, BlockOwnerDeletion := true }]

/-- `statefulSetForVpnGw`: `oldSts = none` is the nil pointer. -/
def statefulSetForVpnGw {Tol Aff : Type} (gw : VpnGw Tol Aff)
    (oldSts : Option (StatefulSet Tol Aff)) : StatefulSet Tol Aff :=
  let replicas := gw.Spec.Replicas
  let labels := labelsForVpnGw gw
  { Name := gw.Name
    Namespace := gw.Namespace
    Labels := labels
    Annotations := []
    OwnerReferences := controllerReference gw
    Spec :=
      { Replicas := some replicas
        MatchLabels := labels
        Template :=
          { Labels := labels
            Annotations := podAnnotationsFor gw oldSts
            Spec :=
              { Containers := containersFor gw
                NodeSelector := selectorsFor gw.Spec.Selector
                Tolerations := gw.Spec.Tolerations
                Affinity := some gw.Spec.Affinity } }
        UpdateStrategyType := "RollingUpdate" } }

/-! ## Change detector -/

/-- `isChanged`: the result and the Gw after the call (the receiver is mutated
through its pointer). Every branch that finds a difference overwrites that one
Mirror field and returns `true` at once. -/
def isChanged {Tol Aff : Type} [DecidableEq Tol] [DecidableEq Aff]
    (gw : VpnGw Tol Aff) : Bool × VpnGw Tol Aff :=
  if gw.Status.Subnet = "" ∧ gw.Spec.Subnet ≠ "" then
    (true, { gw with Status := { gw.Status with Subnet := gw.Spec.Subnet } })
  else if gw.Status.Ip ≠ gw.Spec.Ip then
    (true, { gw with Status := { gw.Status with Ip := gw.Spec.Ip } })
  else if gw.Status.Replicas ≠ gw.Spec.Replicas then
    (true, { gw with Status := { gw.Status with Replicas := gw.Spec.Replicas } })
  else if gw.Status.EnableSslVpn ≠ gw.Spec.EnableSslVpn then
    (true, { gw with Status := { gw.Status with EnableSslVpn := gw.Spec.EnableSslVpn } })
  else if gw.Status.EnableIpsecVpn ≠ gw.Spec.EnableIpsecVpn then
    (true, { gw with Status := { gw.Status with EnableIpsecVpn := gw.Spec.EnableIpsecVpn } })
  else if gw.Status.OvpnCipher ≠ gw.Spec.OvpnCipher then
    (true, { gw with Status := { gw.Status with OvpnCipher := gw.Spec.OvpnCipher } })
  else if gw.Status.OvpnProto ≠ gw.Spec.OvpnProto then
    (true, { gw with Status := { gw.Status with OvpnProto := gw.Spec.OvpnProto } })
  else if gw.Status.OvpnPort ≠ gw.Spec.OvpnPort then
    (true, { gw with Status := { gw.Status with OvpnPort := gw.Spec.OvpnPort } })
  else if gw.Status.OvpnSubnetCidr ≠ gw.Spec.OvpnSubnetCidr then
    (true, { gw with Status := { gw.Status with OvpnSubnetCidr := gw.Spec.OvpnSubnetCidr } })
  else if ¬ (gw.Spec.Selector = gw.Status.Selector) then
    (true, { gw with Status := { gw.Status with Selector := gw.Spec.Selector } })
  else if ¬ (gw.Spec.Tolerations = gw.Status.Tolerations) then
    (true, { gw with Status := { gw.Status with Tolerations := gw.Spec.Tolerations } })
  else if ¬ (gw.Spec.Affinity = gw.Status.Affinity) then
    (true, { gw with Status := { gw.Status with Affinity := gw.Spec.Affinity } })
  else
    (false, gw)

/-- Some shadowed field of the Mirror differs from the Spec; the subnet counts
only while the Mirror's subnet is empty and the Spec's is not. -/
def Differs {Tol Aff : Type} (gw : VpnGw Tol Aff) : Prop :=
  (gw.Status.Subnet = "" ∧ gw.Spec.Subnet ≠ "") ∨
  gw.Status.Ip ≠ gw.Spec.Ip ∨
  gw.Status.Replicas ≠ gw.Spec.Replicas ∨
  gw.Status.EnableSslVpn ≠ gw.Spec.EnableSslVpn ∨
  gw.Status.EnableIpsecVpn ≠ gw.Spec.EnableIpsecVpn ∨
  gw.Status.OvpnCipher ≠ gw.Spec.OvpnCipher ∨
  gw.Status.OvpnProto ≠ gw.Spec.OvpnProto ∨
  gw.Status.OvpnPort ≠ gw.Spec.OvpnPort ∨
  gw.Status.OvpnSubnetCidr ≠ gw.Spec.OvpnSubnetCidr ∨
  gw.Status.Selector ≠ gw.Spec.Selector ∨
  gw.Status.Tolerations ≠ gw.Spec.Tolerations ∨
  gw.Status.Affinity ≠ gw.Spec.Affinity

/-- The Mirror equals the Spec in every shadowed field other than the subnet. -/
def MirrorSynced {Tol Aff : Type} (gw : VpnGw Tol Aff) : Prop :=
  gw.Status.Ip = gw.Spec.Ip ∧
  gw.Status.Replicas = gw.Spec.Replicas ∧
  gw.Status.EnableSslVpn = gw.Spec.EnableSslVpn ∧
  gw.Status.EnableIpsecVpn = gw.Spec.EnableIpsecVpn ∧
  gw.Status.OvpnCipher = gw.Spec.OvpnCipher ∧
  gw.Status.OvpnProto = gw.Spec.OvpnProto ∧
  gw.Status.OvpnPort = gw.Spec.OvpnPort ∧
  gw.Status.OvpnSubnetCidr = gw.Spec.OvpnSubnetCidr ∧
  gw.Status.Selector = gw.Spec.Selector ∧
  gw.Status.Tolerations = gw.Spec.Tolerations ∧
  gw.Status.Affinity = gw.Spec.Affinity

/-- The shadowed fields, in the order `isChanged` inspects them. -/
inductive Field
  | Subnet
  | Ip
  | Replicas
  | EnableSslVpn
  | EnableIpsecVpn
  | OvpnCipher
  | OvpnProto
  | OvpnPort
  | OvpnSubnetCidr
  | Selector
  | Tolerations
  | Affinity
  deriving DecidableEq, Repr

/-- All shadowed fields in inspection order. -/
def Field.order : List Field :=
  [.Subnet, .Ip, .Replicas, .EnableSslVpn, .EnableIpsecVpn, .OvpnCipher, .OvpnProto, .OvpnPort, .OvpnSubnetCidr, .Selector, .Tolerations, .Affinity]

/-- Field `f` of the Mirror differs from the Spec, as `isChanged` tests it. -/
def Field.differs {Tol Aff : Type} [DecidableEq Tol] [DecidableEq Aff]
    (gw : VpnGw Tol Aff) : Field → Bool
  | .Subnet => decide (gw.Status.Subnet = "" ∧ gw.Spec.Subnet ≠ "")
  | .Ip => decide (gw.Status.Ip ≠ gw.Spec.Ip)
  | .Replicas => decide (gw.Status.Replicas ≠ gw.Spec.Replicas)
  | .EnableSslVpn => decide (gw.Status.EnableSslVpn ≠ gw.Spec.EnableSslVpn)
  | .EnableIpsecVpn => decide (gw.Status.EnableIpsecVpn ≠ gw.Spec.EnableIpsecVpn)
  | .OvpnCipher => decide (gw.Status.OvpnCipher ≠ gw.Spec.OvpnCipher)
  | .OvpnProto => decide (gw.Status.OvpnProto ≠ gw.Spec.OvpnProto)
  | .OvpnPort => decide (gw.Status.OvpnPort ≠ gw.Spec.OvpnPort)
  | .OvpnSubnetCidr => decide (gw.Status.OvpnSubnetCidr ≠ gw.Spec.OvpnSubnetCidr)
  | .Selector => decide (gw.Status.Selector ≠ gw.Spec.Selector)
  | .Tolerations => decide (gw.Status.Tolerations ≠ gw.Spec.Tolerations)
  | .Affinity => decide (gw.Status.Affinity ≠ gw.Spec.Affinity)

/-- The Gw after `Mirror.f := Spec.f`. -/
def Field.sync {Tol Aff : Type} (gw : VpnGw Tol Aff) : Field → VpnGw Tol Aff
  | .Subnet => { gw with Status := { gw.Status with Subnet := gw.Spec.Subnet } }
  | .Ip => { gw with Status := { gw.Status with Ip := gw.Spec.Ip } }
  | .Replicas => { gw with Status := { gw.Status with Replicas := gw.Spec.Replicas } }
  | .EnableSslVpn => { gw with Status := { gw.Status with EnableSslVpn := gw.Spec.EnableSslVpn } }
  | .EnableIpsecVpn => { gw with Status := { gw.Status with EnableIpsecVpn := gw.Spec.EnableIpsecVpn } }
  | .OvpnCipher => { gw with Status := { gw.Status with OvpnCipher := gw.Spec.OvpnCipher } }
  | .OvpnProto => { gw with Status := { gw.Status with OvpnProto := gw.Spec.OvpnProto } }
  | .OvpnPort => { gw with Status := { gw.Status with OvpnPort := gw.Spec.OvpnPort } }
  | .OvpnSubnetCidr => { gw with Status := { gw.Status with OvpnSubnetCidr := gw.Spec.OvpnSubnetCidr } }
  | .Selector => { gw with Status := { gw.Status with Selector := gw.Spec.Selector } }
  | .Tolerations => { gw with Status := { gw.Status with Tolerations := gw.Spec.Tolerations } }
  | .Affinity => { gw with Status := { gw.Status with Affinity := gw.Spec.Affinity } }

/-- The first shadowed field that differs, if any. -/
def firstDiff {Tol Aff : Type} [DecidableEq Tol] [DecidableEq Aff]
    (gw : VpnGw Tol Aff) : Option Field :=
  Field.order.find? (Field.differs gw)

/-- The number of shadowed fields that differ. -/
def diffCount {Tol Aff : Type} [DecidableEq Tol] [DecidableEq Aff]
    (gw : VpnGw Tol Aff) : Nat :=
  Field.order.countP (Field.differs gw)

/-! ## External store -/

/-- `types.NamespacedName`. -/
structure NamespacedName where
  Namespace : String
  Name : String
  deriving DecidableEq, Repr

/-- `ctrl.Request`. -/
structure Request where
  NamespacedName : NamespacedName
  deriving DecidableEq, Repr

/-- `ctrl.Result`; the empty result requests no requeue. -/
structure Result where
  Requeue : Bool := false
  RequeueAfter : Nat := 0
  deriving DecidableEq, Repr

/-- `apierrors.IsNotFound`; it is false on the nil error. -/
def IsNotFound : Option ApiError → Bool
  | some .NotFound => true
  | _ => false

/-- The store client over a store state `σ`. A read returns the object or the
error, a write returns its error (`none` is nil); every call may change the
store state, so any pattern of successes and failures is some client. The
objects of the model carry no server-populated metadata, so the client writes
nothing back into the object it is handed. -/
structure Client (σ Tol Aff : Type) where
  GetSts : σ → NamespacedName → Except ApiError (StatefulSet Tol Aff) × σ
  GetGw : σ → NamespacedName → Except ApiError (VpnGw Tol Aff) × σ
  Create : σ → StatefulSet Tol Aff → Option ApiError × σ
  Update : σ → StatefulSet Tol Aff → Option ApiError × σ
  StatusUpdate : σ → VpnGw Tol Aff → Option ApiError × σ

/-- A store call as issued by the controller, with its argument and outcome. -/
inductive Call (Tol Aff : Type)
  | getSts (key : NamespacedName) (res : Except ApiError (StatefulSet Tol Aff))
  | getGw (key : NamespacedName) (res : Except ApiError (VpnGw Tol Aff))
  | create (obj : StatefulSet Tol Aff) (err : Option ApiError)
  | update (obj : StatefulSet Tol Aff) (err : Option ApiError)
  | statusUpdate (gw : VpnGw Tol Aff) (err : Option ApiError)

/-- The call is a read of the child descriptor. -/
def Call.isGetSts {Tol Aff : Type} : Call Tol Aff → Bool
  | .getSts _ _ => true
  | _ => false

/-- The call is a create. -/
def Call.isCreate {Tol Aff : Type} : Call Tol Aff → Bool
  | .create _ _ => true
  | _ => false

/-- The call is an update of the child descriptor. -/
def Call.isUpdate {Tol Aff : Type} : Call Tol Aff → Bool
  | .update _ _ => true
  | _ => false

/-- The call is a status-persist. -/
def Call.isStatusUpdate {Tol Aff : Type} : Call Tol Aff → Bool
  | .statusUpdate _ _ => true
  | _ => false

/-- The call writes to the store. -/
def Call.isWrite {Tol Aff : Type} (c : Call Tol Aff) : Bool :=
  c.isCreate || c.isUpdate || c.isStatusUpdate

/-- The call is a create or update that succeeded. -/
def Call.isApplied {Tol Aff : Type} : Call Tol Aff → Bool
  | .create _ none => true
  | .update _ none => true
  | _ => false

/-- The call failed; a not-found answer to a read is not a failure. -/
def Call.failed {Tol Aff : Type} : Call Tol Aff → Bool
  | .getSts _ (.error e) => !IsNotFound (some e)
  | .getGw _ (.error e) => !IsNotFound (some e)
  | .create _ (some _) => true
  | .update _ (some _) => true
  | .statusUpdate _ (some _) => true
  | _ => false

/-! ## Convergence handler -/

/-- What one run of the handler leaves behind: the returned state, the
caller's Gw object, the store, and the store calls issued, in order. -/
structure HandlerResult (σ Tol Aff : Type) where
  state : SyncState
  gw : VpnGw Tol Aff
  store : σ
  calls : List (Call Tol Aff)

/-- `VpnGw.DeepCopy`: a copy equal to the original. -/
def VpnGw.DeepCopy {Tol Aff : Type} (gw : VpnGw Tol Aff) : VpnGw Tol Aff := gw

/-- `StatefulSet.DeepCopy`. -/
def StatefulSet.DeepCopy {Tol Aff : Type} (o : StatefulSet Tol Aff) : StatefulSet Tol Aff := o

/-- `handleAddOrUpdateVpnGw`. `caller` is the object behind the pointer the
handler was given; after `gw = gw.DeepCopy()` the handler works on `gw`. -/
def handleAddOrUpdateVpnGw {σ Tol Aff : Type} [DecidableEq Tol] [DecidableEq Aff]
    (r : Client σ Tol Aff) (s : σ) (caller : VpnGw Tol Aff) (req : Request) :
    HandlerResult σ Tol Aff :=
  let get := r.GetSts s req.NamespacedName
  let t0 : List (Call Tol Aff) := [.getSts req.NamespacedName get.1]
  match get.1 with
  | .error err =>
    if IsNotFound (some err) then
      -- needToCreate
      let newSts := statefulSetForVpnGw caller none
      let cr := r.Create get.2 newSts
      let t1 := t0 ++ [.create newSts cr.1]
      match cr.1 with
      | some _ => ⟨.SyncStateError, caller, cr.2, t1⟩
      | none =>
        let st := r.StatusUpdate cr.2 caller
        let t2 := t1 ++ [.statusUpdate caller st.1]
        match st.1 with
        | some _ => ⟨.SyncStateError, caller, st.2, t2⟩
        | none => ⟨.SyncStateSuccess, caller, st.2, t2⟩
    else
      ⟨.SyncStateError, caller, get.2, t0⟩
  | .ok oldSts =>
    let gw := caller.DeepCopy
    let ch := isChanged gw
    let gw := ch.2
    if ch.1 then
      -- needToUpdate
      let newSts := statefulSetForVpnGw gw (some oldSts.DeepCopy)
      let up := r.Update get.2 newSts
      let t1 := t0 ++ [.update newSts up.1]
      match up.1 with
      | some _ => ⟨.SyncStateError, caller, up.2, t1⟩
      | none =>
        let st := r.StatusUpdate up.2 gw
        let t2 := t1 ++ [.statusUpdate gw st.1]
        match st.1 with
        | some _ => ⟨.SyncStateError, caller, st.2, t2⟩
        | none => ⟨.SyncStateSuccess, caller, st.2, t2⟩
    else
      ⟨.SyncStateSuccess, caller, get.2, t0⟩

/-! ## Reconcile dispatcher -/

/-- What one `Reconcile` leaves behind: the returned pair, the store, the
store calls issued, and how often each counter was incremented. -/
structure ReconcileResult (σ Tol Aff : Type) where
  result : Result
  err : Option GoError
  store : σ
  calls : List (Call Tol Aff)
  updates : Nat
  updateErrors : Nat

/-- `getVpnGw`: the returned pair (`none` is the nil pointer / nil error),
the store and the call issued. -/
def getVpnGw {σ Tol Aff : Type} (r : Client σ Tol Aff) (s : σ) (name : NamespacedName) :
    (Option (VpnGw Tol Aff) × Option GoError) × σ × Call Tol Aff :=
  let get := r.GetGw s name
  match get.1 with
  | .error err =>
    if IsNotFound (some err) then ((none, none), get.2, .getGw name get.1)
    else ((none, some (.api err)), get.2, .getGw name get.1)
  | .ok res => ((some res, none), get.2, .getGw name get.1)

/-- The body of `Reconcile` with `r.Handler` set to `handler`. -/
def reconcileWith {σ Tol Aff : Type}
    (handler : σ → VpnGw Tol Aff → Request → HandlerResult σ Tol Aff)
    (r : Client σ Tol Aff) (s : σ) (req : Request) : ReconcileResult σ Tol Aff :=
  let fetched := getVpnGw r s req.NamespacedName
  let t0 := [fetched.2.2]
  match fetched.1 with
  | (_, some err) => ⟨{}, some err, fetched.2.1, t0, 1, 0⟩
  | (none, none) => ⟨{}, none, fetched.2.1, t0, 1, 0⟩
  | (some gw, none) =>
    match validateVpnGw gw with
    | some err => ⟨{}, some err, fetched.2.1, t0, 1, 0⟩
    | none =>
      let res := handler fetched.2.1 gw req
      match res.state with
      | .SyncStateError => ⟨{}, some .errRetry, res.store, t0 ++ res.calls, 1, 1⟩
      | .SyncStateErrorNoRetry => ⟨{}, none, res.store, t0 ++ res.calls, 1, 1⟩
      | .SyncStateSuccess => ⟨{}, none, res.store, t0 ++ res.calls, 1, 0⟩

/-- `Reconcile`: the handler is `handleAddOrUpdateVpnGw` (line 385). -/
def Reconcile {σ Tol Aff : Type} [DecidableEq Tol] [DecidableEq Aff]
    (r : Client σ Tol Aff) (s : σ) (req : Request) : ReconcileResult σ Tol Aff :=
  reconcileWith (handleAddOrUpdateVpnGw r) r s req

/-! ## An in-memory store whose calls all succeed -/

/-- The store restricted to the identity under reconciliation: the Gw and its
child descriptor, if any. -/
structure MemStore (Tol Aff : Type) where
  gw : VpnGw Tol Aff
  sts : Option (StatefulSet Tol Aff)

/-- Client of the in-memory store: a read of an absent child answers
not-found, every other call succeeds; a status-persist replaces the stored
Gw's status sub-resource only. -/
def memClient (Tol Aff : Type) : Client (MemStore Tol Aff) Tol Aff where
  GetSts s _ :=
    (match s.sts with
     | some o => .ok o
     | none => .error .NotFound, s)
  GetGw s _ := (.ok s.gw, s)
  Create s o := (none, { s with sts := some o })
  Update s o := (none, { s with sts := some o })
  StatusUpdate s g := (none, { s with gw := { s.gw with Status := g.Status } })

/-- Every call of the client succeeds: reads answer with the object or
not-found, writes return nil. -/
def AllSucceed {σ Tol Aff : Type} (r : Client σ Tol Aff) : Prop :=
  (∀ s k, (r.GetSts s k).1 ≠ .error .Other) ∧
  (∀ s k, (r.GetGw s k).1 ≠ .error .Other) ∧
  (∀ s o, (r.Create s o).1 = none) ∧
  (∀ s o, (r.Update s o).1 = none) ∧
  (∀ s g, (r.StatusUpdate s g).1 = none)

/-! ## Example objects -/

/-- The all-zero Mirror. -/
def zeroStatus : VpnGwStatus Unit Unit :=
  { Subnet := "", Ip := "", Replicas := 0, EnableSslVpn := false, EnableIpsecVpn := false,
    OvpnCipher := "", OvpnProto := "", OvpnPort := 0, OvpnSubnetCidr := "",
    Selector := none, Tolerations := none, Affinity := () }

/-- A Spec with subnet `10.0.0.0/24`, the given replica count, no tunnel. -/
def plainSpec (replicas : Int) : VpnGwSpec Unit Unit :=
  { Subnet := "10.0.0.0/24", Ip := "", Replicas := replicas, EnableSslVpn := false,
    EnableIpsecVpn := false, OvpnCipher := "", OvpnProto := "", OvpnPort := 0,
    OvpnSubnetCidr := "", SslVpnImage := "", Selector := none, Tolerations := none,
    Affinity := () }

/-- A Gw with a non-empty subnet and `Replicas = 2` against an all-zero Mirror. -/
def gwZeroMirror : VpnGw Unit Unit :=
  { Name := "gw1", Namespace := "default", Spec := plainSpec 2, Status := zeroStatus }

/-- A Gw whose Mirror differs from the Spec in the replica count only. -/
def gwReplicasChanged : VpnGw Unit Unit :=
  { Name := "gw1", Namespace := "default", Spec := plainSpec 2,
    Status := { zeroStatus with Subnet := "10.0.0.0/24", Replicas := 1 } }

/-- The request for the example Gw. -/
def reqGw1 : Request := ⟨⟨"default", "gw1"⟩⟩

/-- A Gw whose Mirror differs from the Spec in the pinned address and in the
replica count. -/
def gwTwoChanges : VpnGw Unit Unit :=
  { Name := "gw1", Namespace := "default", Spec := { plainSpec 2 with Ip := "10.0.0.5" },
    Status := { zeroStatus with Subnet := "10.0.0.0/24", Replicas := 1 } }

/-- The child descriptor of `gw1` as created for one replica. -/
def childGw1 : StatefulSet Unit Unit :=
  statefulSetForVpnGw
    { Name := "gw1", Namespace := "default", Spec := plainSpec 1, Status := zeroStatus } none

/-- Two runs of the handler in succession over the in-memory store that holds
`gw` and `child`: the second run is on the Gw as the store holds it after the
first. -/
def runTwice {Tol Aff : Type} [DecidableEq Tol] [DecidableEq Aff] (gw : VpnGw Tol Aff)
    (child : Option (StatefulSet Tol Aff)) (req : Request) :
    HandlerResult (MemStore Tol Aff) Tol Aff × HandlerResult (MemStore Tol Aff) Tol Aff :=
  let first := handleAddOrUpdateVpnGw (memClient Tol Aff) ⟨gw, child⟩ gw req
  (first, handleAddOrUpdateVpnGw (memClient Tol Aff) first.store first.store.gw req)

/-! ## Selector strings -/

/-- The body of the node-selector loop: what one selector string does to the
map built so far. -/
def selectorStep (selectors : StrMap) (v : String) : StrMap :=
  match Split (TrimSpace v) ':' with
  | [p0, p1] => selectors.set (TrimSpace p0) (TrimSpace p1)
  | _ => selectors

/-- The number of `':'` in a selector string. -/
def colonCount (v : String) : Nat := v.data.count ':'

/-- The text before the first `':'`. -/
def beforeColon (v : String) : String := ⟨v.data.takeWhile (fun c => c ≠ ':')⟩

/-- The text after the first `':'`. -/
def afterColon (v : String) : String := ⟨(v.data.dropWhile (fun c => c ≠ ':')).drop 1⟩

/-- The annotation map `statefulSetForVpnGw` starts from: the prior
descriptor's, or the empty map when there is no prior descriptor. -/
def priorAnnotations {Tol Aff : Type} (oldSts : Option (StatefulSet Tol Aff)) : StrMap :=
  match oldSts with
  | some o => o.Annotations
  | none => []

/-! ## Further example objects and notions for the change detector -/

/-- A Spec with the SSL tunnel enabled and every SSL parameter well-formed. -/
def sslSpec : VpnGwSpec Unit Unit :=
  { plainSpec 1 with EnableSslVpn := true, OvpnCipher := "AES-256-GCM", OvpnProto := "udp",
                     OvpnPort := 1194, OvpnSubnetCidr := "10.8.0.0/24",
                     SslVpnImage := "vpn:latest" }

/-- SSL enabled with protocol `"http"` and an empty image reference. -/
def gwHttpNoImage : VpnGw Unit Unit :=
  { Name := "gw1", Namespace := "default",
    Spec := { sslSpec with OvpnProto := "http", SslVpnImage := "" }, Status := zeroStatus }

/-- Empty subnet and three replicas. -/
def gwNoSubnetThreeReplicas : VpnGw Unit Unit :=
  { Name := "gw1", Namespace := "default",
    Spec := { plainSpec 3 with Subnet := "" }, Status := zeroStatus }

/-- SSL enabled with listen port `2^32 + 1194`, a value of Go's 64-bit `int`. -/
def gwBigPort : VpnGw Unit Unit :=
  { Name := "gw1", Namespace := "default",
    Spec := { sslSpec with OvpnPort := 4294968490 }, Status := zeroStatus }

/-- SSL disabled, IPsec enabled, no image reference, one replica. -/
def gwIpsecNoImage : VpnGw Unit Unit :=
  { Name := "gw1", Namespace := "default",
    Spec := { plainSpec 1 with EnableIpsecVpn := true }, Status := zeroStatus }

/-- The Gw after `n` consecutive calls of `isChanged`. -/
def isChangedTimes {Tol Aff : Type} [DecidableEq Tol] [DecidableEq Aff] :
    Nat → VpnGw Tol Aff → VpnGw Tol Aff
  | 0, gw => gw
  | n + 1, gw => (isChanged (isChangedTimes n gw)).2

/-- Position of a shadowed field in the order `isChanged` inspects them. -/
def Field.rank (f : Field) : Nat := Field.order.indexOf f

/-- Field `f` has the same value in the Mirrors `a` and `b`. -/
def Field.sameIn {Tol Aff : Type} (a b : VpnGwStatus Tol Aff) : Field → Prop
  | .Subnet => a.Subnet = b.Subnet
  | .Ip => a.Ip = b.Ip
  | .Replicas => a.Replicas = b.Replicas
  | .EnableSslVpn => a.EnableSslVpn = b.EnableSslVpn
  | .EnableIpsecVpn => a.EnableIpsecVpn = b.EnableIpsecVpn
  | .OvpnCipher => a.OvpnCipher = b.OvpnCipher
  | .OvpnProto => a.OvpnProto = b.OvpnProto
  | .OvpnPort => a.OvpnPort = b.OvpnPort
  | .OvpnSubnetCidr => a.OvpnSubnetCidr = b.OvpnSubnetCidr
  | .Selector => a.Selector = b.Selector
  | .Tolerations => a.Tolerations = b.Tolerations
  | .Affinity => a.Affinity = b.Affinity

/-- Field `f` of the Mirror equals field `f` of the Spec. -/
def Field.matchesSpec {Tol Aff : Type} (gw : VpnGw Tol Aff) : Field → Prop
  | .Subnet => gw.Status.Subnet = gw.Spec.Subnet
  | .Ip => gw.Status.Ip = gw.Spec.Ip
  | .Replicas => gw.Status.Replicas = gw.Spec.Replicas
  | .EnableSslVpn => gw.Status.EnableSslVpn = gw.Spec.EnableSslVpn
  | .EnableIpsecVpn => gw.Status.EnableIpsecVpn = gw.Spec.EnableIpsecVpn
  | .OvpnCipher => gw.Status.OvpnCipher = gw.Spec.OvpnCipher
  | .OvpnProto => gw.Status.OvpnProto = gw.Spec.OvpnProto
  | .OvpnPort => gw.Status.OvpnPort = gw.Spec.OvpnPort
  | .OvpnSubnetCidr => gw.Status.OvpnSubnetCidr = gw.Spec.OvpnSubnetCidr
  | .Selector => gw.Status.Selector = gw.Spec.Selector
  | .Tolerations => gw.Status.Tolerations = gw.Spec.Tolerations
  | .Affinity => gw.Status.Affinity = gw.Spec.Affinity

/-! ## Theorems -/

theorem validateVpnGw_eq_none_iff {Tol Aff : Type} (gw : VpnGw Tol Aff) :
    validateVpnGw gw = none ↔ ValidSpec gw.Spec := by
  unfold validateVpnGw ValidSpec
  constructor
  · intro h
    split_ifs at h with a1 a2 a3 a4 a5 a6 a7 a8 a9
    · simp only [not_or, not_lt, gt_iff_lt] at a2
      simp only [not_and_or, not_not] at a8
      exact ⟨a1, a2.1, a2.2, fun _ => ⟨a4, a8, a6, a7, a9⟩⟩
    · simp only [not_or, not_lt, gt_iff_lt] at a2
      exact ⟨a1, a2.1, a2.2, fun hs => absurd hs a3⟩
  · rintro ⟨h1, h2, h3, h4⟩
    by_cases hs : gw.Spec.EnableSslVpn = true
    · obtain ⟨a, b, c, d, e⟩ := h4 hs
      have hp : gw.Spec.OvpnProto ≠ "" := by
        rcases b with b | b <;> simp [b]
      have hb : ¬ (gw.Spec.OvpnProto ≠ "udp" ∧ gw.Spec.OvpnProto ≠ "tcp") := by
        rcases b with b | b <;> simp [b]
      have hr : ¬ (gw.Spec.Replicas < 0 ∨ gw.Spec.Replicas > 2) := by omega
      simp [h1, hr, hs, a, hp, c, d, hb, e]
    · have hr : ¬ (gw.Spec.Replicas < 0 ∨ gw.Spec.Replicas > 2) := by omega
      simp [h1, hr, hs]

theorem isChanged_eq {Tol Aff : Type} [DecidableEq Tol] [DecidableEq Aff]
    (gw : VpnGw Tol Aff) :
    isChanged gw =
      match firstDiff gw with
      | none => (false, gw)
      | some f => (true, f.sync gw) := by
  unfold isChanged
  by_cases h1 : gw.Status.Subnet = "" ∧ gw.Spec.Subnet ≠ ""
  · rw [if_pos h1]
    have d1 : Field.differs gw .Subnet = true := decide_eq_true h1
    have e : firstDiff gw = some .Subnet := by
      simp only [firstDiff, Field.order, List.find?, d1]
    rw [e]; rfl
  rw [if_neg h1]
  have d1 : Field.differs gw .Subnet = false := decide_eq_false h1
  by_cases h2 : gw.Status.Ip ≠ gw.Spec.Ip
  · rw [if_pos h2]
    have d2 : Field.differs gw .Ip = true := decide_eq_true h2
    have e : firstDiff gw = some .Ip := by
      simp only [firstDiff, Field.order, List.find?, d1, d2]
    rw [e]; rfl
  rw [if_neg h2]
  have d2 : Field.differs gw .Ip = false := decide_eq_false h2
  by_cases h3 : gw.Status.Replicas ≠ gw.Spec.Replicas
  · rw [if_pos h3]
    have d3 : Field.differs gw .Replicas = true := decide_eq_true h3
    have e : firstDiff gw = some .Replicas := by
      simp only [firstDiff, Field.order, List.find?, d1, d2, d3]
    rw [e]; rfl
  rw [if_neg h3]
  have d3 : Field.differs gw .Replicas = false := decide_eq_false h3
  by_cases h4 : gw.Status.EnableSslVpn ≠ gw.Spec.EnableSslVpn
  · rw [if_pos h4]
    have d4 : Field.differs gw .EnableSslVpn = true := decide_eq_true h4
    have e : firstDiff gw = some .EnableSslVpn := by
      simp only [firstDiff, Field.order, List.find?, d1, d2, d3, d4]
    rw [e]; rfl
  rw [if_neg h4]
  have d4 : Field.differs gw .EnableSslVpn = false := decide_eq_false h4
  by_cases h5 : gw.Status.EnableIpsecVpn ≠ gw.Spec.EnableIpsecVpn
  · rw [if_pos h5]
    have d5 : Field.differs gw .EnableIpsecVpn = true := decide_eq_true h5
    have e : firstDiff gw = some .EnableIpsecVpn := by
      simp only [firstDiff, Field.order, List.find?, d1, d2, d3, d4, d5]
    rw [e]; rfl
  rw [if_neg h5]
  have d5 : Field.differs gw .EnableIpsecVpn = false := decide_eq_false h5
  by_cases h6 : gw.Status.OvpnCipher ≠ gw.Spec.OvpnCipher
  · rw [if_pos h6]
    have d6 : Field.differs gw .OvpnCipher = true := decide_eq_true h6
    have e : firstDiff gw = some .OvpnCipher := by
      simp only [firstDiff, Field.order, List.find?, d1, d2, d3, d4, d5, d6]
    rw [e]; rfl
  rw [if_neg h6]
  have d6 : Field.differs gw .OvpnCipher = false := decide_eq_false h6
  by_cases h7 : gw.Status.OvpnProto ≠ gw.Spec.OvpnProto
  · rw [if_pos h7]
    have d7 : Field.differs gw .OvpnProto = true := decide_eq_true h7
    have e : firstDiff gw = some .OvpnProto := by
      simp only [firstDiff, Field.order, List.find?, d1, d2, d3, d4, d5, d6, d7]
    rw [e]; rfl
  rw [if_neg h7]
  have d7 : Field.differs gw .OvpnProto = false := decide_eq_false h7
  by_cases h8 : gw.Status.OvpnPort ≠ gw.Spec.OvpnPort
  · rw [if_pos h8]
    have d8 : Field.differs gw .OvpnPort = true := decide_eq_true h8
    have e : firstDiff gw = some .OvpnPort := by
      simp only [firstDiff, Field.order, List.find?, d1, d2, d3, d4, d5, d6, d7, d8]
    rw [e]; rfl
  rw [if_neg h8]
  have d8 : Field.differs gw .OvpnPort = false := decide_eq_false h8
  by_cases h9 : gw.Status.OvpnSubnetCidr ≠ gw.Spec.OvpnSubnetCidr
  · rw [if_pos h9]
    have d9 : Field.differs gw .OvpnSubnetCidr = true := decide_eq_true h9
    have e : firstDiff gw = some .OvpnSubnetCidr := by
      simp only [firstDiff, Field.order, List.find?, d1, d2, d3, d4, d5, d6, d7, d8, d9]
    rw [e]; rfl
  rw [if_neg h9]
  have d9 : Field.differs gw .OvpnSubnetCidr = false := decide_eq_false h9
  by_cases h10 : ¬ (gw.Spec.Selector = gw.Status.Selector)
  · rw [if_pos h10]
    have d10 : Field.differs gw .Selector = true := decide_eq_true (fun h => h10 h.symm)
    have e : firstDiff gw = some .Selector := by
      simp only [firstDiff, Field.order, List.find?, d1, d2, d3, d4, d5, d6, d7, d8, d9, d10]
    rw [e]; rfl
  rw [if_neg h10]
  have d10 : Field.differs gw .Selector = false := decide_eq_false (fun h => h10 h.symm)
  by_cases h11 : ¬ (gw.Spec.Tolerations = gw.Status.Tolerations)
  · rw [if_pos h11]
    have d11 : Field.differs gw .Tolerations = true := decide_eq_true (fun h => h11 h.symm)
    have e : firstDiff gw = some .Tolerations := by
      simp only [firstDiff, Field.order, List.find?, d1, d2, d3, d4, d5, d6, d7, d8, d9, d10, d11]
    rw [e]; rfl
  rw [if_neg h11]
  have d11 : Field.differs gw .Tolerations = false := decide_eq_false (fun h => h11 h.symm)
  by_cases h12 : ¬ (gw.Spec.Affinity = gw.Status.Affinity)
  · rw [if_pos h12]
    have d12 : Field.differs gw .Affinity = true := decide_eq_true (fun h => h12 h.symm)
    have e : firstDiff gw = some .Affinity := by
      simp only [firstDiff, Field.order, List.find?, d1, d2, d3, d4, d5, d6, d7, d8, d9, d10, d11, d12]
    rw [e]; rfl
  rw [if_neg h12]
  have d12 : Field.differs gw .Affinity = false := decide_eq_false (fun h => h12 h.symm)
  have e : firstDiff gw = none := by
    simp only [firstDiff, Field.order, List.find?, d1, d2, d3, d4, d5, d6, d7, d8, d9, d10, d11, d12]
  rw [e]

/-- C1: `validateVpnGw` returns nil exactly when the subnet is non-empty, the
replica count lies in `[0,2]` and, with SSL enabled, cipher, client CIDR and
image are non-empty, the port is non-zero and the protocol is `"udp"` or
`"tcp"`. The result does not depend on the pinned address; replicas `-1` and
`3` are rejected, replicas `0` and `1` are accepted when the other rules hold,
SSL with an empty cipher or with protocol `"http"` is rejected. -/
theorem validateVpnGw_accepts_iff {Tol Aff : Type} (gw : VpnGw Tol Aff) :
    (validateVpnGw gw = none ↔ ValidSpec gw.Spec) ∧
    (∀ ip : String,
      validateVpnGw { gw with Spec := { gw.Spec with Ip := ip } } = validateVpnGw gw) ∧
    (gw.Spec.Replicas = -1 ∨ gw.Spec.Replicas = 3 → validateVpnGw gw ≠ none) ∧
    (gw.Spec.Replicas = 0 ∨ gw.Spec.Replicas = 1 →
      gw.Spec.Subnet ≠ "" → gw.Spec.EnableSslVpn = false → validateVpnGw gw = none) ∧
    (gw.Spec.EnableSslVpn = true → gw.Spec.OvpnCipher = "" → validateVpnGw gw ≠ none) ∧
    (gw.Spec.EnableSslVpn = true → gw.Spec.OvpnProto = "http" → validateVpnGw gw ≠ none) := by
  refine ⟨validateVpnGw_eq_none_iff gw, fun _ => rfl, ?_, ?_, ?_, ?_⟩
  · intro h hv
    have := (validateVpnGw_eq_none_iff gw).1 hv
    obtain ⟨_, h2, h3, _⟩ := this
    omega
  · intro h hs hssl
    refine (validateVpnGw_eq_none_iff gw).2 ⟨hs, by omega, by omega, ?_⟩
    intro h1
    rw [hssl] at h1
    exact absurd h1 (by decide)
  · intro hssl hc hv
    exact ((validateVpnGw_eq_none_iff gw).1 hv).2.2.2 hssl |>.1 hc
  · intro hssl hp hv
    have := (((validateVpnGw_eq_none_iff gw).1 hv).2.2.2 hssl).2.1
    rw [hp] at this
    revert this
    decide

theorem differs_iff {Tol Aff : Type} [DecidableEq Tol] [DecidableEq Aff]
    (gw : VpnGw Tol Aff) : (∃ f, Field.differs gw f = true) ↔ Differs gw := by
  unfold Differs
  constructor
  · rintro ⟨f, hf⟩
    cases f <;> simp only [Field.differs, decide_eq_true_eq] at hf <;> tauto
  · intro h
    rcases h with h | h | h | h | h | h | h | h | h | h | h | h
    · exact ⟨.Subnet, decide_eq_true h⟩
    · exact ⟨.Ip, decide_eq_true h⟩
    · exact ⟨.Replicas, decide_eq_true h⟩
    · exact ⟨.EnableSslVpn, decide_eq_true h⟩
    · exact ⟨.EnableIpsecVpn, decide_eq_true h⟩
    · exact ⟨.OvpnCipher, decide_eq_true h⟩
    · exact ⟨.OvpnProto, decide_eq_true h⟩
    · exact ⟨.OvpnPort, decide_eq_true h⟩
    · exact ⟨.OvpnSubnetCidr, decide_eq_true h⟩
    · exact ⟨.Selector, decide_eq_true h⟩
    · exact ⟨.Tolerations, decide_eq_true h⟩
    · exact ⟨.Affinity, decide_eq_true h⟩

theorem Field.mem_order (f : Field) : f ∈ Field.order := by
  cases f <;> simp [Field.order]

theorem firstDiff_isSome_iff {Tol Aff : Type} [DecidableEq Tol] [DecidableEq Aff]
    (gw : VpnGw Tol Aff) : (firstDiff gw).isSome = true ↔ ∃ f, Field.differs gw f = true := by
  unfold firstDiff
  rw [List.find?_isSome]
  constructor
  · rintro ⟨f, _, hf⟩
    exact ⟨f, hf⟩
  · rintro ⟨f, hf⟩
    exact ⟨f, Field.mem_order f, hf⟩

theorem isChanged_fst {Tol Aff : Type} [DecidableEq Tol] [DecidableEq Aff]
    (gw : VpnGw Tol Aff) : (isChanged gw).1 = (firstDiff gw).isSome := by
  rw [isChanged_eq]
  cases firstDiff gw <;> rfl

/-- C2: `isChanged` returns true exactly when some shadowed field of the Mirror,
as it was before the call, differs from the Spec; the subnet counts as
differing only when the Mirror's subnet is empty and the Spec's is not. -/
theorem isChanged_true_iff_differs {Tol Aff : Type} [DecidableEq Tol] [DecidableEq Aff]
    (gw : VpnGw Tol Aff) :
    (isChanged gw).1 = true ↔
      ((gw.Status.Subnet = "" ∧ gw.Spec.Subnet ≠ "") ∨
        gw.Status.Ip ≠ gw.Spec.Ip ∨
        gw.Status.Replicas ≠ gw.Spec.Replicas ∨
        gw.Status.EnableSslVpn ≠ gw.Spec.EnableSslVpn ∨
        gw.Status.EnableIpsecVpn ≠ gw.Spec.EnableIpsecVpn ∨
        gw.Status.OvpnCipher ≠ gw.Spec.OvpnCipher ∨
        gw.Status.OvpnProto ≠ gw.Spec.OvpnProto ∨
        gw.Status.OvpnPort ≠ gw.Spec.OvpnPort ∨
        gw.Status.OvpnSubnetCidr ≠ gw.Spec.OvpnSubnetCidr ∨
        gw.Status.Selector ≠ gw.Spec.Selector ∨
        gw.Status.Tolerations ≠ gw.Spec.Tolerations ∨
        gw.Status.Affinity ≠ gw.Spec.Affinity) := by
  rw [isChanged_fst, firstDiff_isSome_iff, differs_iff]
  rfl

theorem differs_sync_self {Tol Aff : Type} [DecidableEq Tol] [DecidableEq Aff]
    (gw : VpnGw Tol Aff) (f : Field) : Field.differs (f.sync gw) f = false := by
  cases f <;> simp [Field.sync, Field.differs]

theorem differs_sync_other {Tol Aff : Type} [DecidableEq Tol] [DecidableEq Aff]
    (gw : VpnGw Tol Aff) (f g : Field) (h : g ≠ f) :
    Field.differs (f.sync gw) g = Field.differs gw g := by
  cases f <;> cases g <;> first | exact absurd rfl h | rfl

theorem diffCount_eq {Tol Aff : Type} [DecidableEq Tol] [DecidableEq Aff]
    (gw : VpnGw Tol Aff) :
    diffCount gw =
      (if Field.differs gw .Subnet = true then 1 else 0) +
        (if Field.differs gw .Ip = true then 1 else 0) +
        (if Field.differs gw .Replicas = true then 1 else 0) +
        (if Field.differs gw .EnableSslVpn = true then 1 else 0) +
        (if Field.differs gw .EnableIpsecVpn = true then 1 else 0) +
        (if Field.differs gw .OvpnCipher = true then 1 else 0) +
        (if Field.differs gw .OvpnProto = true then 1 else 0) +
        (if Field.differs gw .OvpnPort = true then 1 else 0) +
        (if Field.differs gw .OvpnSubnetCidr = true then 1 else 0) +
        (if Field.differs gw .Selector = true then 1 else 0) +
        (if Field.differs gw .Tolerations = true then 1 else 0) +
        (if Field.differs gw .Affinity = true then 1 else 0) := by
  simp only [diffCount, Field.order, List.countP_cons, List.countP_nil]
  omega

theorem firstDiff_differs {Tol Aff : Type} [DecidableEq Tol] [DecidableEq Aff]
    (gw : VpnGw Tol Aff) (f : Field) (h : firstDiff gw = some f) :
    Field.differs gw f = true :=
  List.find?_some h

theorem firstDiff_eq_none_iff {Tol Aff : Type} [DecidableEq Tol] [DecidableEq Aff]
    (gw : VpnGw Tol Aff) : firstDiff gw = none ↔ ∀ f, Field.differs gw f = false := by
  unfold firstDiff
  rw [List.find?_eq_none]
  constructor
  · intro h f
    simpa using h f (Field.mem_order f)
  · intro h f _
    simp [h f]

theorem diffCount_eq_zero_iff {Tol Aff : Type} [DecidableEq Tol] [DecidableEq Aff]
    (gw : VpnGw Tol Aff) : diffCount gw = 0 ↔ ∀ f, Field.differs gw f = false := by
  unfold diffCount
  rw [List.countP_eq_zero]
  constructor
  · intro h f
    simpa using h f (Field.mem_order f)
  · intro h f _
    simp [h f]

theorem diffCount_sync {Tol Aff : Type} [DecidableEq Tol] [DecidableEq Aff]
    (gw : VpnGw Tol Aff) (f : Field) (h : Field.differs gw f = true) :
    diffCount (f.sync gw) + 1 = diffCount gw := by
  rw [diffCount_eq, diffCount_eq]
  cases f <;>
    simp only [differs_sync_self, differs_sync_other, ne_eq, reduceCtorEq, not_false_eq_true,
      h, if_true, Bool.false_eq_true, if_false] <;> omega

/-- After any call the subnet no longer counts as differing. -/
theorem isChanged_subnet_settled {Tol Aff : Type} [DecidableEq Tol] [DecidableEq Aff]
    (gw : VpnGw Tol Aff) : Field.differs (isChanged gw).2 .Subnet = false := by
  rw [isChanged_eq]
  cases hf : firstDiff gw with
  | none => exact (firstDiff_eq_none_iff gw).1 hf _
  | some f =>
    by_cases hs : f = .Subnet
    · subst hs
      exact (differs_sync_self gw .Subnet : Field.differs (Field.sync gw .Subnet) .Subnet = false)
    · show Field.differs (f.sync gw) .Subnet = false
      rw [differs_sync_other gw f .Subnet (fun h => hs h.symm)]
      by_contra hd
      have hd' : Field.differs gw .Subnet = true := by simpa using hd
      have : firstDiff gw = some .Subnet := by
        simp only [firstDiff, Field.order, List.find?, hd']
      rw [this] at hf
      exact hs (Option.some.inj hf).symm

theorem isChanged_diffCount {Tol Aff : Type} [DecidableEq Tol] [DecidableEq Aff]
    (gw : VpnGw Tol Aff) : diffCount (isChanged gw).2 = diffCount gw - 1 := by
  rw [isChanged_eq]
  cases hf : firstDiff gw with
  | none =>
    have : diffCount gw = 0 := (diffCount_eq_zero_iff gw).2 ((firstDiff_eq_none_iff gw).1 hf)
    show diffCount gw = diffCount gw - 1
    omega
  | some f =>
    have := diffCount_sync gw f (firstDiff_differs gw f hf)
    show diffCount (f.sync gw) = diffCount gw - 1
    omega

theorem mirrorSynced_iff {Tol Aff : Type} [DecidableEq Tol] [DecidableEq Aff]
    (gw : VpnGw Tol Aff) :
    MirrorSynced gw ↔ ∀ f, f ≠ .Subnet → Field.differs gw f = false := by
  unfold MirrorSynced
  constructor
  · intro h f hf
    cases f <;> simp [Field.differs] <;> first | exact absurd rfl hf | tauto
  · intro h
    have h2 := h .Ip (by decide)
    have h3 := h .Replicas (by decide)
    have h4 := h .EnableSslVpn (by decide)
    have h5 := h .EnableIpsecVpn (by decide)
    have h6 := h .OvpnCipher (by decide)
    have h7 := h .OvpnProto (by decide)
    have h8 := h .OvpnPort (by decide)
    have h9 := h .OvpnSubnetCidr (by decide)
    have h10 := h .Selector (by decide)
    have h11 := h .Tolerations (by decide)
    have h12 := h .Affinity (by decide)
    simp only [Field.differs, decide_eq_false_iff_not, ne_eq, not_not] at h2 h3 h4 h5 h6 h7 h8 h9 h10 h11 h12
    exact ⟨h2, h3, h4, h5, h6, h7, h8, h9, h10, h11, h12⟩

theorem isChanged_synced_iff {Tol Aff : Type} [DecidableEq Tol] [DecidableEq Aff]
    (gw : VpnGw Tol Aff) : MirrorSynced (isChanged gw).2 ↔ diffCount gw ≤ 1 := by
  have hs := isChanged_subnet_settled gw
  have hc := isChanged_diffCount gw
  rw [mirrorSynced_iff]
  constructor
  · intro h
    have : diffCount (isChanged gw).2 = 0 := by
      rw [diffCount_eq_zero_iff]
      intro f
      by_cases hf : f = .Subnet
      · rw [hf]; exact hs
      · exact h f hf
    omega
  · intro h f _
    have : diffCount (isChanged gw).2 = 0 := by omega
    exact (diffCount_eq_zero_iff _).1 this f

theorem sync_status_subnet {Tol Aff : Type} (gw : VpnGw Tol Aff) (f : Field)
    (h : f ≠ .Subnet) : (f.sync gw).Status.Subnet = gw.Status.Subnet := by
  cases f <;> first | exact absurd rfl h | rfl

theorem sync_spec {Tol Aff : Type} (gw : VpnGw Tol Aff) (f : Field) :
    (f.sync gw).Spec = gw.Spec ∧ (f.sync gw).Name = gw.Name ∧
      (f.sync gw).Namespace = gw.Namespace := by
  cases f <;> exact ⟨rfl, rfl, rfl⟩

theorem isChanged_spec {Tol Aff : Type} [DecidableEq Tol] [DecidableEq Aff]
    (gw : VpnGw Tol Aff) :
    (isChanged gw).2.Spec = gw.Spec ∧ (isChanged gw).2.Name = gw.Name ∧
      (isChanged gw).2.Namespace = gw.Namespace := by
  rw [isChanged_eq]
  cases firstDiff gw with
  | none => exact ⟨rfl, rfl, rfl⟩
  | some f => exact sync_spec gw f

theorem isChanged_subnet_of_empty {Tol Aff : Type} [DecidableEq Tol]
    [DecidableEq Aff] (gw : VpnGw Tol Aff) :
    gw.Status.Subnet = "" → (isChanged gw).2.Status.Subnet = gw.Spec.Subnet := by
  intro he
  rw [isChanged_eq]
  cases hf : firstDiff gw with
  | none =>
    have hd := (firstDiff_eq_none_iff gw).1 hf .Subnet
    simp only [Field.differs, decide_eq_false_iff_not, not_and, ne_eq, not_not] at hd
    show gw.Status.Subnet = gw.Spec.Subnet
    rw [he, hd he]
  | some f =>
    show (f.sync gw).Status.Subnet = gw.Spec.Subnet
    by_cases hs : f = .Subnet
    · subst hs
      rfl
    · rw [sync_status_subnet gw f hs]
      have hd : Field.differs gw .Subnet = false := by
        by_contra hd
        have hd' : Field.differs gw .Subnet = true := by simpa using hd
        have : firstDiff gw = some .Subnet := by
          simp only [firstDiff, Field.order, List.find?, hd']
        rw [this] at hf
        exact hs (Option.some.inj hf).symm
      simp only [Field.differs, decide_eq_false_iff_not, not_and, ne_eq, not_not] at hd
      rw [he, hd he]

/-- C3 (counterexample): against an all-zero Mirror and a Spec with a non-empty
subnet and `Replicas = 2`, one call of `isChanged` returns true after copying
the subnet only: `Mirror.Replicas` is still `0`, not `2`. -/
theorem isChanged_short_circuits :
    (isChanged gwZeroMirror).1 = true ∧
    gwZeroMirror.Spec.Replicas = 2 ∧
    (isChanged gwZeroMirror).2.Status.Replicas = 0 ∧
    (isChanged gwZeroMirror).2.Status.Subnet = "10.0.0.0/24" ∧
    ¬ MirrorSynced (isChanged gwZeroMirror).2 := by
  refine ⟨by decide, by decide, by decide, by decide, ?_⟩
  intro h
  exact absurd h.2.1 (by decide)

/-- C3 (amended): a single call of `isChanged` stops at the first shadowed field
that differs (in the order Subnet, Ip, Replicas, EnableSslVpn, EnableIpsecVpn,
OvpnCipher, OvpnProto, OvpnPort, OvpnSubnetCidr, Selector, Tolerations,
Affinity): it overwrites that Mirror field with the Spec's value and returns
true, or returns false and changes nothing when none differs. After the call
the Mirror equals the Spec in every shadowed field other than the subnet
exactly when at most one shadowed field differed before the call, and
`Mirror.Subnet` equals `Spec.Subnet` whenever `Mirror.Subnet` was empty before
the call. -/
theorem isChanged_syncs_first_difference {Tol Aff : Type} [DecidableEq Tol] [DecidableEq Aff]
    (gw : VpnGw Tol Aff) :
    (∀ f, firstDiff gw = some f → isChanged gw = (true, f.sync gw)) ∧
    (firstDiff gw = none → isChanged gw = (false, gw)) ∧
    (MirrorSynced (isChanged gw).2 ↔ diffCount gw ≤ 1) ∧
    (gw.Status.Subnet = "" → (isChanged gw).2.Status.Subnet = gw.Spec.Subnet) := by
  refine ⟨?_, ?_, isChanged_synced_iff gw, ?_⟩
  · intro f hf
    rw [isChanged_eq, hf]
  · intro hf
    rw [isChanged_eq, hf]
  · exact isChanged_subnet_of_empty gw

/-- C10: the container list of `statefulSetForVpnGw` holds the SSL container
exactly when `EnableSslVpn` is set and the IPsec container exactly when
`EnableIpsecVpn` is set, nothing else, SSL first; its length is the number of
enabled toggles. -/
theorem statefulSetForVpnGw_containers {Tol Aff : Type} (gw : VpnGw Tol Aff)
    (oldSts : Option (StatefulSet Tol Aff)) :
    ((statefulSetForVpnGw gw oldSts).Spec.Template.Spec.Containers.map Container.Name =
      (if gw.Spec.EnableSslVpn then ["ssl-vpn-server"] else []) ++
        (if gw.Spec.EnableIpsecVpn then ["ipsec-vpn-server"] else [])) ∧
    ((∃ c ∈ (statefulSetForVpnGw gw oldSts).Spec.Template.Spec.Containers,
        c.Name = "ssl-vpn-server") ↔ gw.Spec.EnableSslVpn = true) ∧
    ((∃ c ∈ (statefulSetForVpnGw gw oldSts).Spec.Template.Spec.Containers,
        c.Name = "ipsec-vpn-server") ↔ gw.Spec.EnableIpsecVpn = true) ∧
    (∀ c ∈ (statefulSetForVpnGw gw oldSts).Spec.Template.Spec.Containers,
        c.Name = "ssl-vpn-server" ∨ c.Name = "ipsec-vpn-server") ∧
    ((statefulSetForVpnGw gw oldSts).Spec.Template.Spec.Containers.length =
      (if gw.Spec.EnableSslVpn then 1 else 0) + (if gw.Spec.EnableIpsecVpn then 1 else 0)) ∧
    (gw.Spec.EnableSslVpn = true → gw.Spec.EnableIpsecVpn = false →
      (statefulSetForVpnGw gw oldSts).Spec.Template.Spec.Containers.map Container.Name =
        ["ssl-vpn-server"]) := by
  have hne : ("ssl-vpn-server" : String) ≠ "ipsec-vpn-server" := by decide
  cases hs : gw.Spec.EnableSslVpn <;> cases hi : gw.Spec.EnableIpsecVpn <;>
    simp [statefulSetForVpnGw, containersFor, hs, hi, SslVpnServer, IpsecVpnServer, hne, hne.symm]

/-- The eight paths through `handleAddOrUpdateVpnGw`. -/
theorem handle_cases {σ Tol Aff : Type} [DecidableEq Tol] [DecidableEq Aff]
    (r : Client σ Tol Aff) (s : σ) (gw : VpnGw Tol Aff) (req : Request) :
    (∃ e, (r.GetSts s req.NamespacedName).1 = .error e ∧ IsNotFound (some e) = false ∧
      handleAddOrUpdateVpnGw r s gw req =
        ⟨.SyncStateError, gw, (r.GetSts s req.NamespacedName).2,
          [.getSts req.NamespacedName (.error e)]⟩) ∨
    (∃ e, (r.GetSts s req.NamespacedName).1 = .error .NotFound ∧
      (r.Create (r.GetSts s req.NamespacedName).2 (statefulSetForVpnGw gw none)).1 = some e ∧
      handleAddOrUpdateVpnGw r s gw req =
        ⟨.SyncStateError, gw,
          (r.Create (r.GetSts s req.NamespacedName).2 (statefulSetForVpnGw gw none)).2,
          [.getSts req.NamespacedName (.error .NotFound),
           .create (statefulSetForVpnGw gw none) (some e)]⟩) ∨
    (∃ e, (r.GetSts s req.NamespacedName).1 = .error .NotFound ∧
      (r.Create (r.GetSts s req.NamespacedName).2 (statefulSetForVpnGw gw none)).1 = none ∧
      (r.StatusUpdate
        (r.Create (r.GetSts s req.NamespacedName).2 (statefulSetForVpnGw gw none)).2 gw).1 =
          some e ∧
      handleAddOrUpdateVpnGw r s gw req =
        ⟨.SyncStateError, gw,
          (r.StatusUpdate
            (r.Create (r.GetSts s req.NamespacedName).2 (statefulSetForVpnGw gw none)).2 gw).2,
          [.getSts req.NamespacedName (.error .NotFound),
           .create (statefulSetForVpnGw gw none) none,
           .statusUpdate gw (some e)]⟩) ∨
    ((r.GetSts s req.NamespacedName).1 = .error .NotFound ∧
      (r.Create (r.GetSts s req.NamespacedName).2 (statefulSetForVpnGw gw none)).1 = none ∧
      (r.StatusUpdate
        (r.Create (r.GetSts s req.NamespacedName).2 (statefulSetForVpnGw gw none)).2 gw).1 =
          none ∧
      handleAddOrUpdateVpnGw r s gw req =
        ⟨.SyncStateSuccess, gw,
          (r.StatusUpdate
            (r.Create (r.GetSts s req.NamespacedName).2 (statefulSetForVpnGw gw none)).2 gw).2,
          [.getSts req.NamespacedName (.error .NotFound),
           .create (statefulSetForVpnGw gw none) none,
           .statusUpdate gw none]⟩) ∨
    (∃ old, (r.GetSts s req.NamespacedName).1 = .ok old ∧ (isChanged gw).1 = false ∧
      handleAddOrUpdateVpnGw r s gw req =
        ⟨.SyncStateSuccess, gw, (r.GetSts s req.NamespacedName).2,
          [.getSts req.NamespacedName (.ok old)]⟩) ∨
    (∃ old e, (r.GetSts s req.NamespacedName).1 = .ok old ∧ (isChanged gw).1 = true ∧
      (r.Update (r.GetSts s req.NamespacedName).2
        (statefulSetForVpnGw (isChanged gw).2 (some old))).1 = some e ∧
      handleAddOrUpdateVpnGw r s gw req =
        ⟨.SyncStateError, gw,
          (r.Update (r.GetSts s req.NamespacedName).2
            (statefulSetForVpnGw (isChanged gw).2 (some old))).2,
          [.getSts req.NamespacedName (.ok old),
           .update (statefulSetForVpnGw (isChanged gw).2 (some old)) (some e)]⟩) ∨
    (∃ old e, (r.GetSts s req.NamespacedName).1 = .ok old ∧ (isChanged gw).1 = true ∧
      (r.Update (r.GetSts s req.NamespacedName).2
        (statefulSetForVpnGw (isChanged gw).2 (some old))).1 = none ∧
      (r.StatusUpdate
        (r.Update (r.GetSts s req.NamespacedName).2
          (statefulSetForVpnGw (isChanged gw).2 (some old))).2 (isChanged gw).2).1 = some e ∧
      handleAddOrUpdateVpnGw r s gw req =
        ⟨.SyncStateError, gw,
          (r.StatusUpdate
            (r.Update (r.GetSts s req.NamespacedName).2
              (statefulSetForVpnGw (isChanged gw).2 (some old))).2 (isChanged gw).2).2,
          [.getSts req.NamespacedName (.ok old),
           .update (statefulSetForVpnGw (isChanged gw).2 (some old)) none,
           .statusUpdate (isChanged gw).2 (some e)]⟩) ∨
    (∃ old, (r.GetSts s req.NamespacedName).1 = .ok old ∧ (isChanged gw).1 = true ∧
      (r.Update (r.GetSts s req.NamespacedName).2
        (statefulSetForVpnGw (isChanged gw).2 (some old))).1 = none ∧
      (r.StatusUpdate
        (r.Update (r.GetSts s req.NamespacedName).2
          (statefulSetForVpnGw (isChanged gw).2 (some old))).2 (isChanged gw).2).1 = none ∧
      handleAddOrUpdateVpnGw r s gw req =
        ⟨.SyncStateSuccess, gw,
          (r.StatusUpdate
            (r.Update (r.GetSts s req.NamespacedName).2
              (statefulSetForVpnGw (isChanged gw).2 (some old))).2 (isChanged gw).2).2,
          [.getSts req.NamespacedName (.ok old),
           .update (statefulSetForVpnGw (isChanged gw).2 (some old)) none,
           .statusUpdate (isChanged gw).2 none]⟩) := by
  have hget : (∃ e, (r.GetSts s req.NamespacedName).1 = .error e) ∨
      (∃ old, (r.GetSts s req.NamespacedName).1 = .ok old) := by
    cases (r.GetSts s req.NamespacedName).1 with
    | error e => exact Or.inl ⟨e, rfl⟩
    | ok old => exact Or.inr ⟨old, rfl⟩
  rcases hget with ⟨e, hg⟩ | ⟨old, hg⟩
  · cases e with
    | Other =>
      left
      exact ⟨.Other, hg, rfl, by simp [handleAddOrUpdateVpnGw, hg, IsNotFound]⟩
    | NotFound =>
      right
      rcases Option.eq_none_or_eq_some
          (r.Create (r.GetSts s req.NamespacedName).2 (statefulSetForVpnGw gw none)).1 with
        hc | ⟨e, hc⟩
      · right
        rcases Option.eq_none_or_eq_some
            (r.StatusUpdate
              (r.Create (r.GetSts s req.NamespacedName).2 (statefulSetForVpnGw gw none)).2 gw).1 with
          hst | ⟨e, hst⟩
        · right; left
          exact ⟨hg, hc, hst, by simp [handleAddOrUpdateVpnGw, hg, hc, hst, IsNotFound]⟩
        · left
          exact ⟨e, hg, hc, hst, by simp [handleAddOrUpdateVpnGw, hg, hc, hst, IsNotFound]⟩
      · left
        exact ⟨e, hg, hc, by simp [handleAddOrUpdateVpnGw, hg, hc, IsNotFound]⟩
  · right; right; right; right
    cases hch : (isChanged gw).1 with
    | false =>
      left
      exact ⟨old, hg, rfl, by simp [handleAddOrUpdateVpnGw, hg, hch, VpnGw.DeepCopy]⟩
    | true =>
      right
      rcases Option.eq_none_or_eq_some
          (r.Update (r.GetSts s req.NamespacedName).2
            (statefulSetForVpnGw (isChanged gw).2 (some old))).1 with
        hu | ⟨e, hu⟩
      · right
        rcases Option.eq_none_or_eq_some
            (r.StatusUpdate
              (r.Update (r.GetSts s req.NamespacedName).2
                (statefulSetForVpnGw (isChanged gw).2 (some old))).2 (isChanged gw).2).1 with
          hst | ⟨e, hst⟩
        · right
          exact ⟨old, hg, rfl, hu, hst, by
            simp [handleAddOrUpdateVpnGw, hg, hch, hu, hst, VpnGw.DeepCopy, StatefulSet.DeepCopy]⟩
        · left
          exact ⟨old, e, hg, rfl, hu, hst, by
            simp [handleAddOrUpdateVpnGw, hg, hch, hu, hst, VpnGw.DeepCopy, StatefulSet.DeepCopy]⟩
      · left
        exact ⟨old, e, hg, rfl, hu, by
          simp [handleAddOrUpdateVpnGw, hg, hch, hu, VpnGw.DeepCopy, StatefulSet.DeepCopy]⟩

theorem memClient_allSucceed (Tol Aff : Type) : AllSucceed (memClient Tol Aff) := by
  refine ⟨?_, ?_, fun _ _ => rfl, fun _ _ => rfl, fun _ _ => rfl⟩
  · intro s k
    cases hs : s.sts <;> simp [memClient, hs]
  · intro s k
    simp [memClient]

theorem isChanged_true_modifies {Tol Aff : Type} [DecidableEq Tol] [DecidableEq Aff]
    (gw : VpnGw Tol Aff) (h : (isChanged gw).1 = true) :
    (isChanged gw).2.Status ≠ gw.Status := by
  intro he
  have hc := isChanged_diffCount gw
  obtain ⟨h1, h2, h3⟩ := isChanged_spec gw
  have heq : (isChanged gw).2 = gw := by
    cases hx : (isChanged gw).2 with
    | mk n ns sp st =>
      rw [hx] at h1 h2 h3 he
      cases gw
      simp_all
  rw [heq] at hc
  rw [isChanged_fst] at h
  obtain ⟨f, hf⟩ := Option.isSome_iff_exists.1 h
  have := diffCount_sync gw f (firstDiff_differs gw f hf)
  omega

/-- C4: over a client whose calls all succeed, `handleAddOrUpdateVpnGw` returns
Success and issues, after the read of the child: (a) child absent: one create of
`statefulSetForVpnGw gw nil`, then one status-persist of the Gw; (b) child
present and `isChanged` true on the copy: one update with
`statefulSetForVpnGw copy prior`, whose replica count is `gw.Spec.Replicas`,
then one status-persist of the copy, whose Mirror was modified; (c) child
present and `isChanged` false: nothing. In (b) and (c) the caller's Gw is
unchanged. -/
theorem handleAddOrUpdateVpnGw_writes {σ Tol Aff : Type} [DecidableEq Tol] [DecidableEq Aff]
    (r : Client σ Tol Aff) (hr : AllSucceed r) (s : σ) (gw : VpnGw Tol Aff) (req : Request) :
    (handleAddOrUpdateVpnGw r s gw req).state = .SyncStateSuccess ∧
    ((r.GetSts s req.NamespacedName).1 = .error .NotFound →
      (handleAddOrUpdateVpnGw r s gw req).calls =
        [.getSts req.NamespacedName (.error .NotFound),
         .create (statefulSetForVpnGw gw none) none,
         .statusUpdate gw none]) ∧
    (∀ old, (r.GetSts s req.NamespacedName).1 = .ok old → (isChanged gw).1 = true →
      (handleAddOrUpdateVpnGw r s gw req).calls =
        [.getSts req.NamespacedName (.ok old),
         .update (statefulSetForVpnGw (isChanged gw).2 (some old)) none,
         .statusUpdate (isChanged gw).2 none] ∧
      (statefulSetForVpnGw (isChanged gw).2 (some old)).Spec.Replicas = some gw.Spec.Replicas ∧
      (isChanged gw).2.Status ≠ gw.Status ∧
      (handleAddOrUpdateVpnGw r s gw req).gw = gw) ∧
    (∀ old, (r.GetSts s req.NamespacedName).1 = .ok old → (isChanged gw).1 = false →
      (handleAddOrUpdateVpnGw r s gw req).calls = [.getSts req.NamespacedName (.ok old)] ∧
      (handleAddOrUpdateVpnGw r s gw req).gw = gw) := by
  obtain ⟨hG, _, hC, hU, hS⟩ := hr
  rcases handle_cases r s gw req with
    ⟨e, hg, hnf, h⟩ | ⟨e, hg, hc, h⟩ | ⟨e, hg, hc, hst, h⟩ | ⟨hg, hc, hst, h⟩ |
    ⟨old, hg, hch, h⟩ | ⟨old, e, hg, hch, hu, h⟩ | ⟨old, e, hg, hch, hu, hst, h⟩ |
    ⟨old, hg, hch, hu, hst, h⟩
  · cases e with
    | NotFound => simp [IsNotFound] at hnf
    | Other => exact absurd hg (hG _ _)
  · rw [hC] at hc; cases hc
  · rw [hS] at hst; cases hst
  · rw [h]
    refine ⟨rfl, fun _ => rfl, ?_, ?_⟩ <;> intro old ho <;> rw [hg] at ho <;> cases ho
  · rw [h]
    refine ⟨rfl, ?_, ?_, ?_⟩
    · intro ho; rw [hg] at ho; cases ho
    · intro old2 _ ht; rw [hch] at ht; cases ht
    · intro old2 ho _
      rw [hg] at ho
      cases ho
      exact ⟨rfl, rfl⟩
  · rw [hU] at hu; cases hu
  · rw [hS] at hst; cases hst
  · rw [h]
    refine ⟨rfl, ?_, ?_, ?_⟩
    · intro ho; rw [hg] at ho; cases ho
    · intro old2 ho _
      rw [hg] at ho
      cases ho
      refine ⟨rfl, ?_, isChanged_true_modifies gw hch, rfl⟩
      show some (isChanged gw).2.Spec.Replicas = some gw.Spec.Replicas
      rw [(isChanged_spec gw).1]
    · intro old2 _ hf; rw [hch] at hf; cases hf

/-- C4 (witness): the in-memory client succeeds on every call; creating the
child of the example Gw returns Success. -/
theorem handleAddOrUpdateVpnGw_writes_witness :
    AllSucceed (memClient Unit Unit) ∧
    (handleAddOrUpdateVpnGw (memClient Unit Unit) ⟨gwZeroMirror, none⟩ gwZeroMirror
      reqGw1).state = .SyncStateSuccess :=
  ⟨memClient_allSucceed Unit Unit,
    (handleAddOrUpdateVpnGw_writes (memClient Unit Unit) (memClient_allSucceed Unit Unit)
      ⟨gwZeroMirror, none⟩ gwZeroMirror reqGw1).1⟩

/-- C7: whatever the store answers, one run of `handleAddOrUpdateVpnGw` issues
exactly one read of the child descriptor, at most one create-or-update, at most
one status-persist, never both a create and an update, and a status-persist
only after a create or update that succeeded in the same run. -/
theorem handleAddOrUpdateVpnGw_call_discipline {σ Tol Aff : Type}
    [DecidableEq Tol] [DecidableEq Aff]
    (r : Client σ Tol Aff) (s : σ) (gw : VpnGw Tol Aff) (req : Request) :
    (handleAddOrUpdateVpnGw r s gw req).calls.countP Call.isGetSts = 1 ∧
    ((handleAddOrUpdateVpnGw r s gw req).calls.countP Call.isCreate +
      (handleAddOrUpdateVpnGw r s gw req).calls.countP Call.isUpdate ≤ 1) ∧
    (handleAddOrUpdateVpnGw r s gw req).calls.countP Call.isStatusUpdate ≤ 1 ∧
    ¬ ((∃ c ∈ (handleAddOrUpdateVpnGw r s gw req).calls, c.isCreate = true) ∧
       (∃ c ∈ (handleAddOrUpdateVpnGw r s gw req).calls, c.isUpdate = true)) ∧
    (∀ pre c post, (handleAddOrUpdateVpnGw r s gw req).calls = pre ++ c :: post →
      c.isStatusUpdate = true → ∃ a ∈ pre, a.isApplied = true) := by
  rcases handle_cases r s gw req with
    ⟨e, hg, hnf, h⟩ | ⟨e, hg, hc, h⟩ | ⟨e, hg, hc, hst, h⟩ | ⟨hg, hc, hst, h⟩ |
    ⟨old, hg, hch, h⟩ | ⟨old, e, hg, hch, hu, h⟩ | ⟨old, e, hg, hch, hu, hst, h⟩ |
    ⟨old, hg, hch, hu, hst, h⟩ <;> rw [h] <;>
  refine ⟨by simp [List.countP_cons, Call.isGetSts],
    by simp [List.countP_cons, Call.isCreate, Call.isUpdate],
    by simp [List.countP_cons, Call.isStatusUpdate],
    by simp [Call.isCreate, Call.isUpdate], ?_⟩ <;>
  intro pre c post hsplit hc <;>
  rcases pre with _ | ⟨a, _ | ⟨b, _ | ⟨d, pre⟩⟩⟩ <;>
  simp only [List.nil_append, List.cons_append, List.cons.injEq, List.nil_eq,
    List.append_eq_nil, and_false, false_and, reduceCtorEq] at hsplit <;>
  (try (obtain ⟨h1, h2, h3⟩ := hsplit)) <;>
  (try subst h1) <;> (try subst h2) <;>
  first
    | (simp [Call.isStatusUpdate] at hc; done)
    | simp [Call.isApplied]

/-- C8: `handleAddOrUpdateVpnGw` returns Error exactly when a store call it
issued failed (the child read with an error other than not-found, the create,
the update or the status-persist), Success otherwise, and never ErrorNoRetry;
a not-found answer to the child read is no failure and is followed by the
create. -/
theorem handleAddOrUpdateVpnGw_state {σ Tol Aff : Type} [DecidableEq Tol] [DecidableEq Aff]
    (r : Client σ Tol Aff) (s : σ) (gw : VpnGw Tol Aff) (req : Request) :
    ((handleAddOrUpdateVpnGw r s gw req).state = .SyncStateError ↔
      ∃ c ∈ (handleAddOrUpdateVpnGw r s gw req).calls, c.failed = true) ∧
    ((handleAddOrUpdateVpnGw r s gw req).state = .SyncStateSuccess ↔
      ∀ c ∈ (handleAddOrUpdateVpnGw r s gw req).calls, c.failed = false) ∧
    (handleAddOrUpdateVpnGw r s gw req).state ≠ .SyncStateErrorNoRetry ∧
    ((r.GetSts s req.NamespacedName).1 = .error .NotFound →
      ∃ e rest, (handleAddOrUpdateVpnGw r s gw req).calls =
        .getSts req.NamespacedName (.error .NotFound) ::
          .create (statefulSetForVpnGw gw none) e :: rest) := by
  rcases handle_cases r s gw req with
    ⟨e, hg, hnf, h⟩ | ⟨e, hg, hc, h⟩ | ⟨e, hg, hc, hst, h⟩ | ⟨hg, hc, hst, h⟩ |
    ⟨old, hg, hch, h⟩ | ⟨old, e, hg, hch, hu, h⟩ | ⟨old, e, hg, hch, hu, hst, h⟩ |
    ⟨old, hg, hch, hu, hst, h⟩ <;> rw [h]
  · cases e with
    | NotFound => simp [IsNotFound] at hnf
    | Other =>
      refine ⟨by simp [Call.failed, IsNotFound], by simp [Call.failed, IsNotFound], by simp, ?_⟩
      intro hnot
      rw [hg] at hnot
      cases hnot
  all_goals
    refine ⟨by simp [Call.failed, IsNotFound], by simp [Call.failed, IsNotFound], by simp, ?_⟩
    intro hnot
    rw [hg] at hnot
  · exact ⟨_, _, rfl⟩
  · exact ⟨_, _, rfl⟩
  · exact ⟨_, _, rfl⟩
  · cases hnot
  · cases hnot
  · cases hnot
  · cases hnot

/-- C9: `Reconcile` with any handler: a not-found Gw gives no error and no
further store call; another fetch error is returned as is; a Gw the validator
rejects gives the validation error and no further store call; otherwise the
handler runs and Success maps to nil, Error to `errRetry`, ErrorNoRetry to nil.
The Result is always empty, and `Reconcile` itself runs
`handleAddOrUpdateVpnGw`. -/
theorem Reconcile_outcomes {σ Tol Aff : Type} [DecidableEq Tol] [DecidableEq Aff]
    (handler : σ → VpnGw Tol Aff → Request → HandlerResult σ Tol Aff)
    (r : Client σ Tol Aff) (s : σ) (req : Request) :
    Reconcile r s req = reconcileWith (handleAddOrUpdateVpnGw r) r s req ∧
    (reconcileWith handler r s req).result = {} ∧
    ((r.GetGw s req.NamespacedName).1 = .error .NotFound →
      (reconcileWith handler r s req).err = none ∧
      (reconcileWith handler r s req).calls = [.getGw req.NamespacedName (.error .NotFound)] ∧
      (reconcileWith handler r s req).store = (r.GetGw s req.NamespacedName).2) ∧
    (∀ e, (r.GetGw s req.NamespacedName).1 = .error e → IsNotFound (some e) = false →
      (reconcileWith handler r s req).err = some (.api e) ∧
      (reconcileWith handler r s req).calls = [.getGw req.NamespacedName (.error e)] ∧
      (reconcileWith handler r s req).store = (r.GetGw s req.NamespacedName).2) ∧
    (∀ gw e, (r.GetGw s req.NamespacedName).1 = .ok gw → validateVpnGw gw = some e →
      (reconcileWith handler r s req).err = some e ∧
      (reconcileWith handler r s req).calls = [.getGw req.NamespacedName (.ok gw)] ∧
      (reconcileWith handler r s req).store = (r.GetGw s req.NamespacedName).2) ∧
    (∀ gw, (r.GetGw s req.NamespacedName).1 = .ok gw → validateVpnGw gw = none →
      (reconcileWith handler r s req).calls =
        .getGw req.NamespacedName (.ok gw) ::
          (handler (r.GetGw s req.NamespacedName).2 gw req).calls ∧
      (reconcileWith handler r s req).store =
        (handler (r.GetGw s req.NamespacedName).2 gw req).store ∧
      ((handler (r.GetGw s req.NamespacedName).2 gw req).state = .SyncStateSuccess →
        (reconcileWith handler r s req).err = none) ∧
      ((handler (r.GetGw s req.NamespacedName).2 gw req).state = .SyncStateError →
        (reconcileWith handler r s req).err = some .errRetry) ∧
      ((handler (r.GetGw s req.NamespacedName).2 gw req).state = .SyncStateErrorNoRetry →
        (reconcileWith handler r s req).err = none)) := by
  refine ⟨rfl, ?_, ?_, ?_, ?_, ?_⟩
  · have hget : (∃ e, (r.GetGw s req.NamespacedName).1 = .error e) ∨
        (∃ gw, (r.GetGw s req.NamespacedName).1 = .ok gw) := by
      cases (r.GetGw s req.NamespacedName).1 with
      | error e => exact Or.inl ⟨e, rfl⟩
      | ok gw => exact Or.inr ⟨gw, rfl⟩
    rcases hget with ⟨e, hg⟩ | ⟨gw, hg⟩
    · cases e <;> simp [reconcileWith, getVpnGw, hg, IsNotFound]
    · cases hv : validateVpnGw gw with
      | some e => simp [reconcileWith, getVpnGw, hg, hv]
      | none =>
        cases hs : (handler (r.GetGw s req.NamespacedName).2 gw req).state <;>
          simp [reconcileWith, getVpnGw, hg, hv, hs]
  · intro hg
    simp [reconcileWith, getVpnGw, hg, IsNotFound]
  · intro e hg hnf
    cases e with
    | NotFound => simp [IsNotFound] at hnf
    | Other => simp [reconcileWith, getVpnGw, hg, IsNotFound]
  · intro gw e hg hv
    simp [reconcileWith, getVpnGw, hg, hv]
  · intro gw hg hv
    cases hs : (handler (r.GetGw s req.NamespacedName).2 gw req).state <;>
      simp [reconcileWith, getVpnGw, hg, hv, hs]

theorem handle_mem_absent {Tol Aff : Type} [DecidableEq Tol] [DecidableEq Aff]
    (g0 gw : VpnGw Tol Aff) (req : Request) :
    handleAddOrUpdateVpnGw (memClient Tol Aff) ⟨g0, none⟩ gw req =
      ⟨.SyncStateSuccess, gw,
        ⟨{ g0 with Status := gw.Status }, some (statefulSetForVpnGw gw none)⟩,
        [.getSts req.NamespacedName (.error .NotFound),
         .create (statefulSetForVpnGw gw none) none,
         .statusUpdate gw none]⟩ := by
  simp [handleAddOrUpdateVpnGw, memClient, IsNotFound]

theorem handle_mem_unchanged {Tol Aff : Type} [DecidableEq Tol] [DecidableEq Aff]
    (g0 gw : VpnGw Tol Aff) (old : StatefulSet Tol Aff) (req : Request)
    (h : (isChanged gw).1 = false) :
    handleAddOrUpdateVpnGw (memClient Tol Aff) ⟨g0, some old⟩ gw req =
      ⟨.SyncStateSuccess, gw, ⟨g0, some old⟩, [.getSts req.NamespacedName (.ok old)]⟩ := by
  simp [handleAddOrUpdateVpnGw, memClient, VpnGw.DeepCopy, h]

theorem handle_mem_changed {Tol Aff : Type} [DecidableEq Tol] [DecidableEq Aff]
    (g0 gw : VpnGw Tol Aff) (old : StatefulSet Tol Aff) (req : Request)
    (h : (isChanged gw).1 = true) :
    handleAddOrUpdateVpnGw (memClient Tol Aff) ⟨g0, some old⟩ gw req =
      ⟨.SyncStateSuccess, gw,
        ⟨{ g0 with Status := (isChanged gw).2.Status },
          some (statefulSetForVpnGw (isChanged gw).2 (some old))⟩,
        [.getSts req.NamespacedName (.ok old),
         .update (statefulSetForVpnGw (isChanged gw).2 (some old)) none,
         .statusUpdate (isChanged gw).2 none]⟩ := by
  simp [handleAddOrUpdateVpnGw, memClient, VpnGw.DeepCopy, StatefulSet.DeepCopy, h]

theorem isChanged_false_of_diffCount {Tol Aff : Type} [DecidableEq Tol] [DecidableEq Aff]
    (gw : VpnGw Tol Aff) (h : diffCount gw = 0) : (isChanged gw).1 = false := by
  rw [isChanged_fst, (firstDiff_eq_none_iff gw).2 ((diffCount_eq_zero_iff gw).1 h)]
  rfl

theorem with_status_isChanged {Tol Aff : Type} [DecidableEq Tol] [DecidableEq Aff]
    (gw : VpnGw Tol Aff) :
    ({ gw with Status := (isChanged gw).2.Status } : VpnGw Tol Aff) = (isChanged gw).2 := by
  obtain ⟨h1, h2, h3⟩ := isChanged_spec gw
  cases hx : (isChanged gw).2 with
  | mk n ns sp st =>
    rw [hx] at h1 h2 h3
    cases gw
    simp_all

/-- C5 (counterexample): two accepted Gws for which the second of two runs in
succession writes again. With the child absent and an all-zero Mirror the
first run creates the child and persists the Gw as it is, so the second run
finds the subnet unrecorded and issues an update and a status-persist. With
the child present and two differing fields the first run records only the
pinned address, so the second run finds the replica count still differing. -/
theorem second_run_writes_again :
    validateVpnGw gwZeroMirror = none ∧
    (runTwice gwZeroMirror none reqGw1).1.state = .SyncStateSuccess ∧
    (runTwice gwZeroMirror none reqGw1).2.state = .SyncStateSuccess ∧
    (runTwice gwZeroMirror none reqGw1).2.calls.countP Call.isWrite = 2 ∧
    validateVpnGw gwTwoChanges = none ∧
    (runTwice gwTwoChanges (some childGw1) reqGw1).1.state = .SyncStateSuccess ∧
    (runTwice gwTwoChanges (some childGw1) reqGw1).2.state = .SyncStateSuccess ∧
    (runTwice gwTwoChanges (some childGw1) reqGw1).2.calls.countP Call.isWrite = 2 := by
  refine ⟨by decide, by decide, by decide, by decide, by decide, by decide, by decide,
    by decide⟩

/-- C5 (amended): over the in-memory store, whose calls all succeed, two runs
of the handler in succession both return Success and the second run issues no
write, provided the child is present and at most one shadowed field of the
Mirror differs from the Spec (the subnet counted only while the Mirror's is
empty and the Spec's is not), or the child is absent and no shadowed field
differs. -/
theorem second_run_no_write {Tol Aff : Type} [DecidableEq Tol] [DecidableEq Aff]
    (gw : VpnGw Tol Aff) (child : Option (StatefulSet Tol Aff)) (req : Request)
    (h : (child.isSome = true ∧ diffCount gw ≤ 1) ∨ (child = none ∧ diffCount gw = 0)) :
    (runTwice gw child req).1.state = .SyncStateSuccess ∧
    (runTwice gw child req).2.state = .SyncStateSuccess ∧
    (runTwice gw child req).2.calls.countP Call.isWrite = 0 := by
  have hself : ({ gw with Status := gw.Status } : VpnGw Tol Aff) = gw := by cases gw; rfl
  rcases h with ⟨hc, hd⟩ | ⟨hc, hd⟩
  · obtain ⟨old, rfl⟩ := Option.isSome_iff_exists.1 hc
    cases hch : (isChanged gw).1 with
    | false =>
      simp only [runTwice]
      rw [handle_mem_unchanged gw gw old req hch]
      simp only []
      rw [handle_mem_unchanged gw gw old req hch]
      simp [List.countP_cons, Call.isWrite, Call.isCreate, Call.isUpdate, Call.isStatusUpdate]
    | true =>
      have h0 : diffCount (isChanged gw).2 = 0 := by
        have := isChanged_diffCount gw
        omega
      have hch2 := isChanged_false_of_diffCount _ h0
      simp only [runTwice]
      rw [handle_mem_changed gw gw old req hch]
      simp only [with_status_isChanged]
      rw [handle_mem_unchanged _ _ _ req hch2]
      simp [List.countP_cons, Call.isWrite, Call.isCreate, Call.isUpdate, Call.isStatusUpdate]
  · subst hc
    have hch := isChanged_false_of_diffCount gw hd
    simp only [runTwice]
    rw [handle_mem_absent gw gw req]
    simp only [hself]
    rw [handle_mem_unchanged gw gw _ req hch]
    simp [List.countP_cons, Call.isWrite, Call.isCreate, Call.isUpdate, Call.isStatusUpdate]

/-- C5 (amended, witness): the Gw whose Mirror differs in the replica count
only, with its child present. -/
theorem second_run_no_write_witness :
    ((some childGw1).isSome = true ∧ diffCount gwReplicasChanged ≤ 1) ∧
    (runTwice gwReplicasChanged (some childGw1) reqGw1).2.calls.countP Call.isWrite = 0 :=
  ⟨⟨rfl, by decide⟩,
    (second_run_no_write gwReplicasChanged (some childGw1) reqGw1
      (Or.inl ⟨rfl, by decide⟩)).2.2⟩

theorem firstDiff_ne_subnet {Tol Aff : Type} [DecidableEq Tol] [DecidableEq Aff]
    (gw : VpnGw Tol Aff) (f : Field) (hf : firstDiff gw = some f) (hs : f ≠ .Subnet) :
    Field.differs gw .Subnet = false := by
  by_contra hd
  have hd' : Field.differs gw .Subnet = true := by simpa using hd
  have : firstDiff gw = some .Subnet := by
    simp only [firstDiff, Field.order, List.find?, hd']
  rw [this] at hf
  exact hs (Option.some.inj hf).symm

theorem isChanged_subnet_eq_iff {Tol Aff : Type} [DecidableEq Tol] [DecidableEq Aff]
    (gw : VpnGw Tol Aff) :
    (isChanged gw).2.Status.Subnet = gw.Spec.Subnet ↔
      (gw.Status.Subnet = "" ∨ gw.Status.Subnet = gw.Spec.Subnet) := by
  constructor
  · rw [isChanged_eq]
    cases hf : firstDiff gw with
    | none => exact fun h => Or.inr h
    | some f =>
      intro h
      by_cases hs : f = .Subnet
      · subst hs
        have hd := firstDiff_differs gw _ hf
        simp only [Field.differs, decide_eq_true_eq] at hd
        exact Or.inl hd.1
      · have h' : (f.sync gw).Status.Subnet = gw.Spec.Subnet := h
        rw [sync_status_subnet gw f hs] at h'
        exact Or.inr h'
  · rintro (h | h)
    · exact (isChanged_subnet_of_empty gw) h
    · rw [isChanged_eq]
      cases hf : firstDiff gw with
      | none => exact h
      | some f =>
        show (f.sync gw).Status.Subnet = gw.Spec.Subnet
        by_cases hs : f = .Subnet
        · subst hs
          rfl
        · rw [sync_status_subnet gw f hs]
          exact h

/-- C6 (counterexample): on the update path, with the pinned address and the
replica count both differing, the handler returns Success and persists a Gw
whose Mirror still records one replica against a Spec of two; on the create
path it persists the Gw as received, with the all-zero Mirror. -/
theorem persisted_mirror_not_synced :
    validateVpnGw gwTwoChanges = none ∧
    handleAddOrUpdateVpnGw (memClient Unit Unit) ⟨gwTwoChanges, some childGw1⟩ gwTwoChanges
        reqGw1 =
      ⟨.SyncStateSuccess, gwTwoChanges,
        ⟨(isChanged gwTwoChanges).2,
          some (statefulSetForVpnGw (isChanged gwTwoChanges).2 (some childGw1))⟩,
        [.getSts reqGw1.NamespacedName (.ok childGw1),
         .update (statefulSetForVpnGw (isChanged gwTwoChanges).2 (some childGw1)) none,
         .statusUpdate (isChanged gwTwoChanges).2 none]⟩ ∧
    (isChanged gwTwoChanges).2.Status.Replicas = 1 ∧
    (isChanged gwTwoChanges).2.Spec.Replicas = 2 ∧
    validateVpnGw gwZeroMirror = none ∧
    handleAddOrUpdateVpnGw (memClient Unit Unit) ⟨gwZeroMirror, none⟩ gwZeroMirror reqGw1 =
      ⟨.SyncStateSuccess, gwZeroMirror,
        ⟨gwZeroMirror, some (statefulSetForVpnGw gwZeroMirror none)⟩,
        [.getSts reqGw1.NamespacedName (.error .NotFound),
         .create (statefulSetForVpnGw gwZeroMirror none) none,
         .statusUpdate gwZeroMirror none]⟩ ∧
    gwZeroMirror.Status.Replicas = 0 ∧
    gwZeroMirror.Spec.Replicas = 2 := by
  refine ⟨by decide, ?_, by decide, by decide, by decide, ?_, by decide, by decide⟩
  · rw [handle_mem_changed _ _ _ _ (by decide), with_status_isChanged]
  · rw [handle_mem_absent]

/-- C6 (amended): whenever `handleAddOrUpdateVpnGw` returns Success after an
update, the Gw it persisted is the private copy as `isChanged` left it: the
Spec is the caller's, the first shadowed field that differed now equals the
Spec and the rest of the Mirror is as before, so one fewer shadowed field
differs. The persisted Mirror equals the Spec in every shadowed field, subnet
included, exactly when one shadowed field differed before the run and the
Mirror's subnet was empty or already the Spec's. -/
theorem persisted_mirror_after_update {σ Tol Aff : Type} [DecidableEq Tol] [DecidableEq Aff]
    (r : Client σ Tol Aff) (s : σ) (gw : VpnGw Tol Aff) (req : Request)
    (u : StatefulSet Tol Aff) (e : Option ApiError) (p : VpnGw Tol Aff) (e' : Option ApiError)
    (hs : (handleAddOrUpdateVpnGw r s gw req).state = .SyncStateSuccess)
    (hu : Call.update u e ∈ (handleAddOrUpdateVpnGw r s gw req).calls)
    (hp : Call.statusUpdate p e' ∈ (handleAddOrUpdateVpnGw r s gw req).calls) :
    p = (isChanged gw).2 ∧ p.Spec = gw.Spec ∧
    (∃ f, firstDiff gw = some f ∧ p = f.sync gw) ∧
    diffCount p + 1 = diffCount gw ∧
    ((p.Status.Subnet = p.Spec.Subnet ∧ MirrorSynced p) ↔
      (diffCount gw = 1 ∧ (gw.Status.Subnet = "" ∨ gw.Status.Subnet = gw.Spec.Subnet))) := by
  have key : (isChanged gw).1 = true ∧ p = (isChanged gw).2 := by
    rcases handle_cases r s gw req with
      ⟨x, hg, hnf, h⟩ | ⟨x, hg, hc, h⟩ | ⟨x, hg, hc, hst, h⟩ | ⟨hg, hc, hst, h⟩ |
      ⟨old, hg, hch, h⟩ | ⟨old, x, hg, hch, hx, h⟩ | ⟨old, x, hg, hch, hx, hst, h⟩ |
      ⟨old, hg, hch, hx, hst, h⟩ <;> rw [h] at hs hu hp <;>
    first
      | (simp at hs; done)
      | (simp at hu; done)
      | (simp at hp; exact ⟨hch, hp.1⟩)
  obtain ⟨hch, rfl⟩ := key
  obtain ⟨f, hf⟩ := Option.isSome_iff_exists.1 ((isChanged_fst gw).symm.trans hch)
  have hcount := diffCount_sync gw f (firstDiff_differs gw f hf)
  have hp2 : (isChanged gw).2 = f.sync gw := by rw [isChanged_eq, hf]
  refine ⟨rfl, (isChanged_spec gw).1, ⟨f, hf, hp2⟩, ?_, ?_⟩
  · rw [hp2]; exact hcount
  · rw [(isChanged_spec gw).1, isChanged_subnet_eq_iff, isChanged_synced_iff]
    constructor
    · rintro ⟨h1, h2⟩
      exact ⟨by omega, h1⟩
    · rintro ⟨h1, h2⟩
      exact ⟨h2, by omega⟩

/-- C6 (amended, witness): the Gw whose Mirror differs in the replica count
only, child present: the persisted Mirror equals the Spec. -/
theorem persisted_mirror_after_update_witness :
    (handleAddOrUpdateVpnGw (memClient Unit Unit) ⟨gwReplicasChanged, some childGw1⟩
      gwReplicasChanged reqGw1).state = .SyncStateSuccess ∧
    MirrorSynced (isChanged gwReplicasChanged).2 :=
  ⟨by decide,
    ((persisted_mirror_after_update (memClient Unit Unit) ⟨gwReplicasChanged, some childGw1⟩
      gwReplicasChanged reqGw1
      (statefulSetForVpnGw (isChanged gwReplicasChanged).2 (some childGw1)) none
      (isChanged gwReplicasChanged).2 none (by decide)
      (by rw [handle_mem_changed _ _ _ _ (by decide)]; simp)
      (by rw [handle_mem_changed _ _ _ _ (by decide)]; simp)).2.2.2.2.2
        ⟨by decide, Or.inr (by decide)⟩).2⟩

/-! ### Selector strings and annotations -/

theorem splitChars_ne_nil (sep : Char) (cs : List Char) : splitChars sep cs ≠ [] := by
  cases cs with
  | nil => simp [splitChars]
  | cons c cs =>
    unfold splitChars
    split
    · simp
    · split <;> simp

theorem splitChars_no_sep (sep : Char) (cs : List Char) (h : sep ∉ cs) :
    splitChars sep cs = [cs] := by
  induction cs with
  | nil => rfl
  | cons c cs ih =>
    simp only [List.mem_cons, not_or] at h
    have hc : c ≠ sep := fun e => h.1 e.symm
    simp [splitChars, hc, ih h.2]

theorem splitChars_append_sep (sep : Char) (b a : List Char) (h : sep ∉ b) :
    splitChars sep (b ++ sep :: a) = b :: splitChars sep a := by
  induction b with
  | nil => simp [splitChars]
  | cons c b ih =>
    simp only [List.mem_cons, not_or] at h
    have hc : c ≠ sep := fun e => h.1 e.symm
    simp [splitChars, hc, ih h.2]

theorem splitChars_length (sep : Char) (cs : List Char) :
    (splitChars sep cs).length = cs.count sep + 1 := by
  induction cs with
  | nil => rfl
  | cons c cs ih =>
    unfold splitChars
    by_cases hc : c = sep
    · subst hc
      simp [ih]
    · have hne : (c == sep) = false := by simpa using hc
      rw [if_neg hc, List.count_cons, hne]
      cases hs : splitChars sep cs with
      | nil => exact absurd hs (splitChars_ne_nil sep cs)
      | cons p ps =>
        rw [hs] at ih
        simp at ih ⊢
        omega

theorem decompose_at_sep (sep : Char) (cs : List Char) (h : sep ∈ cs) :
    cs = cs.takeWhile (fun c => c ≠ sep) ++ sep :: (cs.dropWhile (fun c => c ≠ sep)).drop 1 ∧
    sep ∉ cs.takeWhile (fun c => c ≠ sep) := by
  induction cs with
  | nil => simp at h
  | cons c cs ih =>
    by_cases hc : c = sep
    · subst hc
      simp
    · have hm : sep ∈ cs := by
        rcases List.mem_cons.1 h with e | e
        · exact absurd e.symm hc
        · exact e
      obtain ⟨h1, h2⟩ := ih hm
      have hne : (decide (c ≠ sep)) = true := by simpa using hc
      simp only [List.takeWhile_cons, List.dropWhile_cons, hne, if_true]
      refine ⟨?_, ?_⟩
      · rw [List.cons_append, ← h1]
      · simp only [List.mem_cons, not_or]
        exact ⟨fun e => hc e.symm, h2⟩

theorem dropWhile_append_stop {p : Char → Bool} (b a : List Char) (c : Char) (h : p c = false) :
    (b ++ c :: a).dropWhile p = b.dropWhile p ++ c :: a := by
  induction b with
  | nil => simp [h]
  | cons x b ih =>
    by_cases hx : p x = true
    · simp [hx, ih]
    · simp [hx]

theorem rdropWhile_append_stop {p : Char → Bool} (b a : List Char) (c : Char) (h : p c = false) :
    (b ++ c :: a).rdropWhile p = b ++ c :: a.rdropWhile p := by
  unfold List.rdropWhile
  rw [List.reverse_append, List.reverse_cons, List.append_assoc, List.singleton_append,
    dropWhile_append_stop _ _ _ h]
  simp

theorem dropWhile_head_stop {p : Char → Bool} (a : List Char) (c : Char) (rest : List Char)
    (h : a.dropWhile p = c :: rest) : p c = false := by
  induction a with
  | nil => simp at h
  | cons x a ih =>
    by_cases hx : p x = true
    · rw [List.dropWhile_cons_of_pos hx] at h
      exact ih h
    · rw [List.dropWhile_cons_of_neg hx] at h
      cases h
      simpa using hx

theorem dropWhile_rdropWhile_comm (p : Char → Bool) (a : List Char) :
    (a.rdropWhile p).dropWhile p = (a.dropWhile p).rdropWhile p := by
  have hsplit := List.takeWhile_append_dropWhile p a
  cases hd : a.dropWhile p with
  | nil =>
    have hall : ∀ x ∈ a, p x = true := List.dropWhile_eq_nil_iff.1 hd
    have : a.rdropWhile p = [] := List.rdropWhile_eq_nil_iff.2 hall
    rw [this]
    simp
  | cons c rest =>
    have hc : p c = false := dropWhile_head_stop a c rest hd
    rw [hd] at hsplit
    have h1 : a.rdropWhile p = a.takeWhile p ++ c :: rest.rdropWhile p := by
      conv_lhs => rw [← hsplit]
      exact rdropWhile_append_stop _ _ _ hc
    have h2 : (c :: rest).rdropWhile p = c :: rest.rdropWhile p :=
      rdropWhile_append_stop [] rest c hc
    have h3 : (a.takeWhile p).dropWhile p = [] := by
      rw [List.dropWhile_eq_nil_iff]
      intro x hx
      exact List.mem_takeWhile_imp hx
    rw [h1, h2, dropWhile_append_stop _ _ _ hc, h3]
    rfl

/-- Both-ends trimming of a character list. -/
theorem trimSpace_data (s : String) :
    (TrimSpace s).data = (s.data.dropWhile isSpace).rdropWhile isSpace := rfl

theorem colon_not_space : isSpace ':' = false := by decide

theorem not_mem_dropWhile {p : Char → Bool} (l : List Char) (c : Char) (h : c ∉ l) :
    c ∉ l.dropWhile p := fun hm => h ((List.dropWhile_sublist p).subset hm)

theorem not_mem_rdropWhile {p : Char → Bool} (l : List Char) (c : Char) (h : c ∉ l) :
    c ∉ l.rdropWhile p := fun hm => h ((List.rdropWhile_prefix p l).subset hm)

theorem trim_data_of_one_colon (b a : List Char) :
    ((b ++ ':' :: a).dropWhile isSpace).rdropWhile isSpace =
      b.dropWhile isSpace ++ ':' :: a.rdropWhile isSpace := by
  rw [dropWhile_append_stop _ _ _ colon_not_space, rdropWhile_append_stop _ _ _ colon_not_space]

theorem count_dropWhile_stop {p : Char → Bool} (l : List Char) (c : Char) (h : p c = false) :
    (l.dropWhile p).count c = l.count c := by
  induction l with
  | nil => rfl
  | cons x l ih =>
    by_cases hx : p x = true
    · have hne : (x == c) = false := by
        rw [beq_eq_false_iff_ne]
        intro e
        rw [e, h] at hx
        cases hx
      rw [List.dropWhile_cons_of_pos hx, ih, List.count_cons, hne]
      simp
    · rw [List.dropWhile_cons_of_neg hx]

theorem count_trim (cs : List Char) :
    ((cs.dropWhile isSpace).rdropWhile isSpace).count ':' = cs.count ':' := by
  unfold List.rdropWhile
  rw [List.count_reverse, count_dropWhile_stop _ _ colon_not_space, List.count_reverse,
    count_dropWhile_stop _ _ colon_not_space]

theorem mk_data (s : String) : String.mk s.data = s := rfl

/-- What one selector string contributes. -/
theorem selectorStep_eq (m : StrMap) (v : String) :
    selectorStep m v =
      if colonCount v = 1 then m.set (TrimSpace (beforeColon v)) (TrimSpace (afterColon v))
      else m := by
  unfold selectorStep Split colonCount
  have hlen := splitChars_length ':' (TrimSpace v).data
  rw [trimSpace_data, count_trim] at hlen
  by_cases h1 : v.data.count ':' = 1
  · rw [if_pos h1]
    have hmem : ':' ∈ v.data := List.count_pos_iff.1 (by omega)
    obtain ⟨hd, hb⟩ := decompose_at_sep ':' v.data hmem
    have ha : ':' ∉ (v.data.dropWhile (fun c => c ≠ ':')).drop 1 := by
      intro hin
      have hc := congrArg (List.count ':') hd
      rw [List.count_append, List.count_cons_self, List.count_eq_zero_of_not_mem hb, h1] at hc
      have := List.count_pos_iff.2 hin
      omega
    have htrim : (TrimSpace v).data =
        (v.data.takeWhile (fun c => c ≠ ':')).dropWhile isSpace ++
          ':' :: ((v.data.dropWhile (fun c => c ≠ ':')).drop 1).rdropWhile isSpace := by
      rw [trimSpace_data]
      conv_lhs => rw [hd]
      exact trim_data_of_one_colon _ _
    rw [htrim, splitChars_append_sep _ _ _ (not_mem_dropWhile _ _ hb),
      splitChars_no_sep _ _ (not_mem_rdropWhile _ _ ha)]
    simp only [List.map_cons, List.map_nil]
    congr 1
    · show String.mk _ = String.mk _
      congr 1
      show List.rdropWhile isSpace (List.dropWhile isSpace
          (List.dropWhile isSpace (v.data.takeWhile (fun c => c ≠ ':')))) =
        List.rdropWhile isSpace (List.dropWhile isSpace (v.data.takeWhile (fun c => c ≠ ':')))
      rw [List.dropWhile_idempotent]
    · show String.mk _ = String.mk _
      congr 1
      show List.rdropWhile isSpace (List.dropWhile isSpace
          (List.rdropWhile isSpace ((v.data.dropWhile (fun c => c ≠ ':')).drop 1))) =
        List.rdropWhile isSpace
          (List.dropWhile isSpace ((v.data.dropWhile (fun c => c ≠ ':')).drop 1))
      rw [dropWhile_rdropWhile_comm, List.rdropWhile_idempotent]
  · rw [if_neg h1]
    rw [trimSpace_data]
    cases hs : splitChars ':' ((v.data.dropWhile isSpace).rdropWhile isSpace) with
    | nil => rfl
    | cons p0 t =>
      cases t with
      | nil => rfl
      | cons p1 t2 =>
        cases t2 with
        | nil =>
          rw [hs] at hlen
          simp at hlen
          omega
        | cons p2 t3 => rfl

theorem StrMap.get_set_self (m : StrMap) (k v : String) : (m.set k v).get k = some v := by
  simp [StrMap.set, StrMap.get]

theorem StrMap.get_filter_ne (m : StrMap) (k k' : String) (h : k' ≠ k) :
    StrMap.get (m.filter (fun p => p.1 ≠ k)) k' = m.get k' := by
  induction m with
  | nil => rfl
  | cons e m ih =>
    obtain ⟨k1, v1⟩ := e
    by_cases h1 : k1 = k
    · have hf : List.filter (fun p => decide (p.1 ≠ k)) ((k1, v1) :: m) =
          List.filter (fun p => decide (p.1 ≠ k)) m := by
        rw [List.filter_cons_of_neg]
        simp [h1]
      have hk : ¬ k1 = k' := fun e => h (e.symm.trans h1)
      rw [hf, ih]
      simp only [StrMap.get, hk, if_false]
    · have hf : List.filter (fun p => decide (p.1 ≠ k)) ((k1, v1) :: m) =
          (k1, v1) :: List.filter (fun p => decide (p.1 ≠ k)) m := by
        rw [List.filter_cons_of_pos]
        simp [h1]
      rw [hf]
      simp only [StrMap.get]
      rw [ih]

theorem StrMap.get_set_ne (m : StrMap) (k v k' : String) (h : k' ≠ k) :
    (m.set k v).get k' = m.get k' := by
  have hk : ¬ k = k' := fun e => h e.symm
  simp only [StrMap.set, StrMap.get, hk, if_false]
  exact StrMap.get_filter_ne m k k' h

theorem selectorsFor_foldl (sel : Slice String) :
    selectorsFor sel = sel.elems.foldl selectorStep [] := rfl

theorem selectorsFor_append (l1 l2 : List String) :
    selectorsFor (some (l1 ++ l2)) = l2.foldl selectorStep (selectorsFor (some l1)) := by
  simp [selectorsFor_foldl, Slice.elems, List.foldl_append]

/-- C11: the node-selector map of `statefulSetForVpnGw` is built from the
selector list; a selector string without `':'` contributes nothing, wherever it
stands; a string with exactly one `':'` maps the trimmed text before the colon
to the trimmed text after it, overriding what earlier strings gave that key and
leaving every other key alone. `["zone:east"]` yields exactly `zone -> east`,
`["zone"]` the empty map. -/
theorem selectors_one_colon {Tol Aff : Type} (gw : VpnGw Tol Aff)
    (oldSts : Option (StatefulSet Tol Aff)) (l1 l2 : List String) (v : String) :
    (statefulSetForVpnGw gw oldSts).Spec.Template.Spec.NodeSelector =
      selectorsFor gw.Spec.Selector ∧
    (colonCount v = 0 → selectorsFor (some (l1 ++ v :: l2)) = selectorsFor (some (l1 ++ l2))) ∧
    (colonCount v = 1 →
      (selectorsFor (some (l1 ++ [v]))).get (TrimSpace (beforeColon v)) =
        some (TrimSpace (afterColon v)) ∧
      ∀ k, k ≠ TrimSpace (beforeColon v) →
        (selectorsFor (some (l1 ++ [v]))).get k = (selectorsFor (some l1)).get k) ∧
    selectorsFor (some ["zone:east"]) = [("zone", "east")] ∧
    selectorsFor (some ["zone"]) = [] ∧
    selectorsFor (some []) = [] ∧
    selectorsFor none = [] := by
  refine ⟨rfl, ?_, ?_, by decide, by decide, rfl, rfl⟩
  · intro h0
    rw [selectorsFor_append, selectorsFor_append, List.foldl_cons, selectorStep_eq,
      if_neg (by omega)]
  · intro h1
    rw [selectorsFor_append, List.foldl_cons, List.foldl_nil, selectorStep_eq, if_pos h1]
    exact ⟨StrMap.get_set_self _ _ _, fun k hk => StrMap.get_set_ne _ _ _ _ hk⟩

/-- C12 (counterexample): `"a:b:c"` is split into three parts and skipped; the
map has no entry for `a`. -/
theorem selector_with_two_colons_skipped :
    Split (TrimSpace "a:b:c") ':' = ["a", "b", "c"] ∧
    selectorsFor (some ["a:b:c"]) = [] ∧
    (selectorsFor (some ["a:b:c"])).get "a" = none := by
  refine ⟨by decide, by decide, by decide⟩

/-- C12 (amended): each selector string is split at every `':'`. A string
contributes an entry exactly when it contains exactly one `':'`: the key is the
trimmed text before it, the value the trimmed text after it. A string with no
`':'` or with two or more (such as `"a:b:c"`) is skipped. -/
theorem selectors_split_every_colon (l1 l2 : List String) (v : String) :
    (Split (TrimSpace v) ':').length = colonCount v + 1 ∧
    (colonCount v ≠ 1 →
      selectorsFor (some (l1 ++ v :: l2)) = selectorsFor (some (l1 ++ l2))) ∧
    (colonCount v = 1 →
      selectorsFor (some (l1 ++ [v])) =
        (selectorsFor (some l1)).set (TrimSpace (beforeColon v)) (TrimSpace (afterColon v))) := by
  refine ⟨?_, ?_, ?_⟩
  · unfold Split colonCount
    rw [List.length_map, splitChars_length, trimSpace_data, count_trim]
  · intro h
    rw [selectorsFor_append, selectorsFor_append, List.foldl_cons, selectorStep_eq, if_neg h]
  · intro h1
    rw [selectorsFor_append, List.foldl_cons, List.foldl_nil, selectorStep_eq, if_pos h1]

/-- C13: the pod-template annotations of `statefulSetForVpnGw` are the prior
descriptor's annotations overridden with the logical-switch entry (the Gw's
subnet) and the address entry (the Gw's pinned address): the two keys always
carry the Gw's values, every other key keeps its prior value, and without a
prior descriptor, or with one without annotations, the map is these two
entries. -/
theorem statefulSetForVpnGw_annotations {Tol Aff : Type} (gw : VpnGw Tol Aff)
    (oldSts : Option (StatefulSet Tol Aff)) :
    ((statefulSetForVpnGw gw oldSts).Spec.Template.Annotations.get
        "ovn.kubernetes.io/logical_switch" = some gw.Spec.Subnet) ∧
    ((statefulSetForVpnGw gw oldSts).Spec.Template.Annotations.get
        "ovn.kubernetes.io/ip_address" = some gw.Spec.Ip) ∧
    (∀ k, k ≠ "ovn.kubernetes.io/logical_switch" → k ≠ "ovn.kubernetes.io/ip_address" →
      (statefulSetForVpnGw gw oldSts).Spec.Template.Annotations.get k =
        (priorAnnotations oldSts).get k) ∧
    (priorAnnotations oldSts = [] →
      (statefulSetForVpnGw gw oldSts).Spec.Template.Annotations =
        [("ovn.kubernetes.io/ip_address", gw.Spec.Ip),
         ("ovn.kubernetes.io/logical_switch", gw.Spec.Subnet)]) := by
  have hne : ("ovn.kubernetes.io/logical_switch" : String) ≠ "ovn.kubernetes.io/ip_address" := by
    decide
  have hbase : ∀ k,
      StrMap.get (match oldSts with
        | some o => if o.Annotations.length ≠ 0 then o.Annotations else []
        | none => []) k = (priorAnnotations oldSts).get k := by
    intro k
    cases oldSts with
    | none => rfl
    | some o =>
      simp only [priorAnnotations]
      by_cases hl : o.Annotations.length ≠ 0
      · rw [if_pos hl]
      · rw [if_neg hl]
        have : o.Annotations = [] := List.length_eq_zero.1 (by omega)
        rw [this]
  refine ⟨?_, ?_, ?_, ?_⟩
  · exact (StrMap.get_set_ne _ KubeovnIpAddressAnnotation _ _ hne).trans
      (StrMap.get_set_self _ KubeovnLogicalSwitchAnnotation _)
  · exact StrMap.get_set_self _ KubeovnIpAddressAnnotation _
  · intro k h1 h2
    exact ((StrMap.get_set_ne _ KubeovnIpAddressAnnotation _ k h2).trans
      (StrMap.get_set_ne _ KubeovnLogicalSwitchAnnotation _ k h1)).trans (hbase k)
  · intro hp
    have hb : (match oldSts with
        | some o => if o.Annotations.length ≠ 0 then o.Annotations else []
        | none => ([] : StrMap)) = [] := by
      cases oldSts with
      | none => rfl
      | some o =>
        simp only [priorAnnotations] at hp
        simp [hp]
    show StrMap.set (StrMap.set _ _ _) _ _ = _
    rw [hb]
    simp [StrMap.set, KubeovnLogicalSwitchAnnotation, KubeovnIpAddressAnnotation]

/-! ### Validator order, one-way subnet, re-runs -/

/-- C14 (counterexample): with SSL enabled, protocol `"http"` and an empty
image, `validateVpnGw` reports the protocol, not the missing image: the
protocol test comes before the image test. -/
theorem validateVpnGw_proto_before_image :
    validateVpnGw gwHttpNoImage = some (.msg "ssl vpn proto should be udp or tcp") ∧
    validateVpnGw gwHttpNoImage ≠ some (.msg "ssl vpn image is required") ∧
    gwHttpNoImage.Spec.SslVpnImage = "" := by
  refine ⟨by decide, by decide, by decide⟩

/-- C14 (amended): `validateVpnGw` returns the error of the first violated rule
in the order: subnet non-empty, replica count in `[0,2]`, then with SSL enabled
cipher non-empty, protocol non-empty, port non-zero, client CIDR non-empty,
protocol `"udp"` or `"tcp"`, image non-empty. So SSL with protocol `"http"` and
an empty image reports the protocol, and an empty subnet with three replicas
reports the subnet. -/
theorem validateVpnGw_first_failure {Tol Aff : Type} (gw : VpnGw Tol Aff) :
    (gw.Spec.Subnet = "" → validateVpnGw gw = some (.msg "vpn gw subnet is required")) ∧
    (gw.Spec.Subnet ≠ "" → (gw.Spec.Replicas < 0 ∨ gw.Spec.Replicas > 2) →
      validateVpnGw gw = some (.msg "vpn gw replicas should be 1 or 2")) ∧
    (gw.Spec.Subnet ≠ "" → ¬ (gw.Spec.Replicas < 0 ∨ gw.Spec.Replicas > 2) →
      gw.Spec.EnableSslVpn = true →
      (gw.Spec.OvpnCipher = "" →
        validateVpnGw gw = some (.msg "ssl vpn cipher is required")) ∧
      (gw.Spec.OvpnCipher ≠ "" → gw.Spec.OvpnProto = "" →
        validateVpnGw gw = some (.msg "ssl vpn proto is required")) ∧
      (gw.Spec.OvpnCipher ≠ "" → gw.Spec.OvpnProto ≠ "" → gw.Spec.OvpnPort = 0 →
        validateVpnGw gw = some (.msg "ssl vpn port is required")) ∧
      (gw.Spec.OvpnCipher ≠ "" → gw.Spec.OvpnProto ≠ "" → gw.Spec.OvpnPort ≠ 0 →
        gw.Spec.OvpnSubnetCidr = "" →
        validateVpnGw gw = some (.msg "ssl vpn subnet cidr is required")) ∧
      (gw.Spec.OvpnCipher ≠ "" → gw.Spec.OvpnProto ≠ "" → gw.Spec.OvpnPort ≠ 0 →
        gw.Spec.OvpnSubnetCidr ≠ "" →
        (gw.Spec.OvpnProto ≠ "udp" ∧ gw.Spec.OvpnProto ≠ "tcp") →
        validateVpnGw gw = some (.msg "ssl vpn proto should be udp or tcp")) ∧
      (gw.Spec.OvpnCipher ≠ "" → gw.Spec.OvpnProto ≠ "" → gw.Spec.OvpnPort ≠ 0 →
        gw.Spec.OvpnSubnetCidr ≠ "" →
        ¬ (gw.Spec.OvpnProto ≠ "udp" ∧ gw.Spec.OvpnProto ≠ "tcp") →
        gw.Spec.SslVpnImage = "" →
        validateVpnGw gw = some (.msg "ssl vpn image is required"))) ∧
    validateVpnGw gwNoSubnetThreeReplicas = some (.msg "vpn gw subnet is required") := by
  refine ⟨?_, ?_, ?_, by decide⟩
  · intro h
    simp only [validateVpnGw, h, if_true]
  · intro h1 h2
    simp only [validateVpnGw, h1, h2, if_true, if_false]
  · intro h1 h2 h3
    refine ⟨?_, ?_, ?_, ?_, ?_, ?_⟩
    · intro a
      simp only [validateVpnGw, h1, h2, h3, a, if_true, if_false]
    · intro a b
      simp only [validateVpnGw, h1, h2, h3, a, b, if_true, if_false]
    · intro a b c
      simp only [validateVpnGw, h1, h2, h3, a, b, c, if_true, if_false]
    · intro a b c d
      simp only [validateVpnGw, h1, h2, h3, a, b, c, d, if_true, if_false]
    · intro a b c d e
      simp only [validateVpnGw, h1, h2, h3, a, b, c, d, if_true, if_false]
      rw [if_pos e]
    · intro a b c d e f
      simp only [validateVpnGw, h1, h2, h3, a, b, c, d, e, f, if_true, if_false]

theorem isChanged_false_eq {Tol Aff : Type} [DecidableEq Tol] [DecidableEq Aff]
    (gw : VpnGw Tol Aff) (h : (isChanged gw).1 = false) : isChanged gw = (false, gw) := by
  rw [isChanged_eq] at h ⊢
  cases hf : firstDiff gw with
  | none => rfl
  | some f =>
    rw [hf] at h
    cases h

theorem isChanged_false_iff {Tol Aff : Type} [DecidableEq Tol] [DecidableEq Aff]
    (gw : VpnGw Tol Aff) :
    (isChanged gw).1 = false ↔
      MirrorSynced gw ∧ (gw.Status.Subnet ≠ "" ∨ gw.Spec.Subnet = "") := by
  rw [isChanged_fst, mirrorSynced_iff]
  constructor
  · intro h
    have hn : firstDiff gw = none := by
      cases hf : firstDiff gw with
      | none => rfl
      | some f => rw [hf] at h; cases h
    have hall := (firstDiff_eq_none_iff gw).1 hn
    refine ⟨fun f _ => hall f, ?_⟩
    have hs := hall .Subnet
    simp only [Field.differs, decide_eq_false_iff_not, not_and, ne_eq, not_not] at hs
    by_cases he : gw.Status.Subnet = ""
    · exact Or.inr (hs he)
    · exact Or.inl he
  · rintro ⟨h1, h2⟩
    have hall : ∀ f, Field.differs gw f = false := by
      intro f
      by_cases hf : f = .Subnet
      · subst hf
        simp only [Field.differs, decide_eq_false_iff_not, not_and, ne_eq, not_not]
        intro he
        rcases h2 with h2 | h2
        · exact absurd he h2
        · exact h2
      · exact h1 f hf
    rw [(firstDiff_eq_none_iff gw).2 hall]
    rfl

/-- C15: the subnet is one-way. When the Mirror already records a non-empty
subnet, `isChanged` leaves `Mirror.Subnet` as it is whatever the Spec's subnet
is, and with every other shadowed field equal it returns false; whenever a call
changes `Mirror.Subnet`, the Mirror's subnet was empty, the Spec's is not, and
the new value is the Spec's. -/
theorem isChanged_subnet_one_way {Tol Aff : Type} [DecidableEq Tol] [DecidableEq Aff]
    (gw : VpnGw Tol Aff) :
    (gw.Status.Subnet ≠ "" → (isChanged gw).2.Status.Subnet = gw.Status.Subnet) ∧
    (gw.Status.Subnet ≠ "" → MirrorSynced gw → isChanged gw = (false, gw)) ∧
    ((isChanged gw).2.Status.Subnet ≠ gw.Status.Subnet →
      gw.Status.Subnet = "" ∧ gw.Spec.Subnet ≠ "" ∧
      (isChanged gw).2.Status.Subnet = gw.Spec.Subnet) := by
  have hkeep : ∀ f, firstDiff gw = some f → f ≠ .Subnet →
      (isChanged gw).2.Status.Subnet = gw.Status.Subnet := by
    intro f hf hs
    rw [isChanged_eq, hf]
    exact sync_status_subnet gw f hs
  refine ⟨?_, ?_, ?_⟩
  · intro hne
    cases hf : firstDiff gw with
    | none => rw [isChanged_eq, hf]
    | some f =>
      refine hkeep f hf ?_
      intro hs
      subst hs
      have hd := firstDiff_differs gw _ hf
      simp only [Field.differs, decide_eq_true_eq] at hd
      exact hne hd.1
  · intro hne hm
    exact isChanged_false_eq gw ((isChanged_false_iff gw).2 ⟨hm, Or.inl hne⟩)
  · intro hch
    cases hf : firstDiff gw with
    | none =>
      rw [isChanged_eq, hf] at hch
      exact absurd rfl hch
    | some f =>
      by_cases hs : f = .Subnet
      · subst hs
        have hd := firstDiff_differs gw _ hf
        simp only [Field.differs, decide_eq_true_eq] at hd
        refine ⟨hd.1, hd.2, ?_⟩
        rw [isChanged_eq, hf]
        rfl
      · exact absurd (hkeep f hf hs) hch

/-- C16: on a Gw whose Mirror equals the Spec in every shadowed field,
`isChanged` returns false and leaves the whole Gw as it is; a call that
returned false changed nothing, so the next call returns false again. -/
theorem isChanged_synced_noop {Tol Aff : Type} [DecidableEq Tol] [DecidableEq Aff]
    (gw : VpnGw Tol Aff) :
    (gw.Status.Subnet = gw.Spec.Subnet → MirrorSynced gw → isChanged gw = (false, gw)) ∧
    ((isChanged gw).1 = false →
      (isChanged gw).2 = gw ∧ isChanged (isChanged gw).2 = (false, gw)) := by
  refine ⟨?_, ?_⟩
  · intro hs hm
    refine isChanged_false_eq gw ((isChanged_false_iff gw).2 ⟨hm, ?_⟩)
    by_cases he : gw.Status.Subnet = ""
    · exact Or.inr (hs ▸ he)
    · exact Or.inl he
  · intro h
    have e := isChanged_false_eq gw h
    rw [e]
    exact ⟨rfl, e⟩

/-! ### Convergence and frame of the change detector -/

theorem diffCount_le (Tol Aff : Type) [DecidableEq Tol] [DecidableEq Aff]
    (gw : VpnGw Tol Aff) : diffCount gw ≤ 12 := by
  unfold diffCount
  exact (List.countP_le_length _).trans (by simp [Field.order])

theorem isChangedTimes_diffCount {Tol Aff : Type} [DecidableEq Tol] [DecidableEq Aff]
    (gw : VpnGw Tol Aff) (n : Nat) : diffCount (isChangedTimes n gw) = diffCount gw - n := by
  induction n with
  | zero => rfl
  | succ n ih =>
    show diffCount (isChanged (isChangedTimes n gw)).2 = diffCount gw - (n + 1)
    rw [isChanged_diffCount, ih]
    omega

theorem diffCount_pos_of_isChanged {Tol Aff : Type} [DecidableEq Tol] [DecidableEq Aff]
    (gw : VpnGw Tol Aff) (h : (isChanged gw).1 = true) : 0 < diffCount gw := by
  by_contra hz
  have := isChanged_false_of_diffCount gw (by omega)
  rw [this] at h
  cases h

/-- C18: a call of `isChanged` that returns true strictly lowers the number of
shadowed fields that differ; that number is at most 12, so a run of
consecutive calls that all return true has length at most 12 and the call
after twelve calls returns false; after a call that returns false the Mirror
equals the Spec in every shadowed field other than the subnet, and
`Mirror.Subnet` is non-empty or `Spec.Subnet` is empty. -/
theorem isChanged_converges {Tol Aff : Type} [DecidableEq Tol] [DecidableEq Aff]
    (gw : VpnGw Tol Aff) (n : Nat) :
    ((isChanged gw).1 = true → diffCount (isChanged gw).2 < diffCount gw) ∧
    diffCount gw ≤ 12 ∧
    ((∀ i, i < n → (isChanged (isChangedTimes i gw)).1 = true) → n ≤ diffCount gw ∧ n ≤ 12) ∧
    (isChanged (isChangedTimes 12 gw)).1 = false ∧
    ((isChanged gw).1 = false →
      MirrorSynced (isChanged gw).2 ∧
      ((isChanged gw).2.Status.Subnet ≠ "" ∨ (isChanged gw).2.Spec.Subnet = "")) := by
  have hle := diffCount_le Tol Aff gw
  refine ⟨?_, hle, ?_, ?_, ?_⟩
  · intro h
    have h1 := isChanged_diffCount gw
    have h2 := diffCount_pos_of_isChanged gw h
    omega
  · intro hall
    cases n with
    | zero => exact ⟨Nat.zero_le _, Nat.zero_le _⟩
    | succ m =>
      have h1 := diffCount_pos_of_isChanged _ (hall m (Nat.lt_succ_self m))
      rw [isChangedTimes_diffCount] at h1
      exact ⟨by omega, by omega⟩
  · apply isChanged_false_of_diffCount
    rw [isChangedTimes_diffCount]
    omega
  · intro h
    rw [isChanged_false_eq gw h]
    exact (isChanged_false_iff gw).1 h

theorem sync_sameIn {Tol Aff : Type} (gw : VpnGw Tol Aff) (f g : Field) (h : g ≠ f) :
    Field.sameIn (f.sync gw).Status gw.Status g := by
  cases f <;> cases g <;> first | exact absurd rfl h | rfl

theorem sync_matchesSpec {Tol Aff : Type} (gw : VpnGw Tol Aff) (f : Field) :
    Field.matchesSpec (f.sync gw) f := by
  cases f <;> rfl

theorem firstDiff_least {Tol Aff : Type} [DecidableEq Tol] [DecidableEq Aff]
    (gw : VpnGw Tol Aff) (f g : Field) (hf : firstDiff gw = some f)
    (hlt : g.rank < f.rank) : Field.differs gw g = false := by
  obtain ⟨_, pre, post, hsplit, hpre⟩ := List.find?_eq_some.1 hf
  have hfr : f.rank ≤ pre.length := by
    unfold Field.rank
    rw [hsplit]
    by_cases hm : f ∈ pre
    · rw [List.indexOf_append_of_mem hm]
      exact List.indexOf_le_length
    · rw [List.indexOf_append_of_not_mem hm, List.indexOf_cons_self]
      omega
  have hg : g ∈ pre := by
    by_contra hm
    have : g.rank = pre.length + List.indexOf g (f :: post) := by
      unfold Field.rank
      rw [hsplit, List.indexOf_append_of_not_mem hm]
    omega
  simpa using hpre g hg

/-- C19: `isChanged` never changes the Gw's name, namespace or Spec. When it
returns true it has set exactly one Mirror field to the Spec's value, namely
the first one in inspection order that differed, and every other Mirror field
is as before; when it returns false the Gw is as before. -/
theorem isChanged_frame {Tol Aff : Type} [DecidableEq Tol] [DecidableEq Aff]
    (gw : VpnGw Tol Aff) :
    (isChanged gw).2.Name = gw.Name ∧
    (isChanged gw).2.Namespace = gw.Namespace ∧
    (isChanged gw).2.Spec = gw.Spec ∧
    ((isChanged gw).1 = true →
      ∃ f, Field.differs gw f = true ∧
        (∀ g, g.rank < f.rank → Field.differs gw g = false) ∧
        Field.matchesSpec (isChanged gw).2 f ∧
        (∀ g, g ≠ f → Field.sameIn (isChanged gw).2.Status gw.Status g) ∧
        (isChanged gw).2.Status ≠ gw.Status) ∧
    ((isChanged gw).1 = false → (isChanged gw).2 = gw) := by
  obtain ⟨h1, h2, h3⟩ := isChanged_spec gw
  refine ⟨h2, h3, h1, ?_, ?_⟩
  · intro h
    obtain ⟨f, hf⟩ := Option.isSome_iff_exists.1 ((isChanged_fst gw).symm.trans h)
    have he : (isChanged gw).2 = f.sync gw := by rw [isChanged_eq, hf]
    refine ⟨f, firstDiff_differs gw f hf, fun g hg => firstDiff_least gw f g hf hg, ?_, ?_,
      isChanged_true_modifies gw h⟩
    · rw [he]
      exact sync_matchesSpec gw f
    · intro g hg
      rw [he]
      exact sync_sameIn gw f g hg
  · intro h
    rw [isChanged_false_eq gw h]

/-! ### Containers: ports, environment, images -/

theorem toInt32_of_inRange (n : Int) (h1 : -2 ^ 31 ≤ n) (h2 : n < 2 ^ 31) : toInt32 n = n := by
  unfold toInt32
  omega

/-- C17 (failing input): the validator accepts the listen port `2^32 + 1194`;
the SSL container then exposes port `1194` (the port narrowed to 32 bits)
while its `ovpn_port` environment value is `"4294968490"`, so the two do not
denote the same integer. -/
theorem sslContainer_port_narrowed :
    validateVpnGw gwBigPort = none ∧
    gwBigPort.Spec.OvpnPort = 4294968490 ∧
    (containersFor gwBigPort).map (fun c => c.Ports) =
      [[{ ContainerPort := 1194, Name := "ssl-vpn-server", Protocol := "udp" }]] ∧
    (containersFor gwBigPort).map (fun c => c.Env) =
      [[{ Name := "ovpn_proto", Value := "udp" },
        { Name := "ovpn_port", Value := "4294968490" },
        { Name := "ovpn_cipher", Value := "AES-256-GCM" },
        { Name := "ovpn_subnet_cidr", Value := "10.8.0.0/24" }]] ∧
    Itoa 1194 ≠ "4294968490" := by
  refine ⟨by decide, by decide, by decide, by decide, by decide⟩

/-- C20: every container's image is the SSL image reference of the Gw, the
IPsec container's too; the validator reads that field only when SSL is
enabled. So the accepted Gw with SSL disabled, IPsec enabled and no image
reference gets an `ipsec-vpn-server` container with an empty image, whereas
for every accepted Gw with SSL enabled all containers have a non-empty
image. -/
theorem ipsec_image_not_validated {Tol Aff : Type} (gw : VpnGw Tol Aff)
    (oldSts : Option (StatefulSet Tol Aff)) :
    (∀ c ∈ (statefulSetForVpnGw gw oldSts).Spec.Template.Spec.Containers,
      c.Image = gw.Spec.SslVpnImage) ∧
    (gw.Spec.EnableSslVpn = false → ∀ img : String,
      validateVpnGw { gw with Spec := { gw.Spec with SslVpnImage := img } } =
        validateVpnGw gw) ∧
    (validateVpnGw gw = none → gw.Spec.EnableSslVpn = true →
      ∀ c ∈ (statefulSetForVpnGw gw oldSts).Spec.Template.Spec.Containers, c.Image ≠ "") ∧
    validateVpnGw gwIpsecNoImage = none ∧
    (statefulSetForVpnGw gwIpsecNoImage none).Spec.Template.Spec.Containers.map
      (fun c => (c.Name, c.Image)) = [("ipsec-vpn-server", "")] := by
  have himg : ∀ c ∈ (statefulSetForVpnGw gw oldSts).Spec.Template.Spec.Containers,
      c.Image = gw.Spec.SslVpnImage := by
    intro c hc
    cases hs : gw.Spec.EnableSslVpn <;> cases hi : gw.Spec.EnableIpsecVpn <;>
      simp [statefulSetForVpnGw, containersFor, hs, hi] at hc
    · rw [hc]
    · rw [hc]
    · rcases hc with hc | hc <;> rw [hc]
  refine ⟨himg, ?_, ?_, by decide, by decide⟩
  · intro hs img
    simp only [validateVpnGw, hs]
    rfl
  · intro hv hs c hc
    rw [himg c hc]
    exact (((validateVpnGw_eq_none_iff gw).1 hv).2.2.2 hs).2.2.2.2

end VpnGwController
